import Mathlib

/-!
# db_api_task: tenant-scoped model resolution, data operations and provisioning

A shallow embedding of `common/models/storage.js`.

* JavaScript values are the inductive `JsVal`; `JsVal.truthy` is the test an
  `if (x)` performs.  Objects keep their properties in insertion order;
  `assign` is the keyed write, `JsObject.spread` the object spread.
* The LoopBack application object is the record `App`: `findById` answers
  `Storage.findById`, `datasources` is `Storage.app.datasources`, `models` is
  `Storage.app.models`, and every datasource carries its `models` map
  (`dataSource.models`).  The descriptor fields `DbEngine`, `DbName` and
  `DbPrefixTable` are strings, so `+` on them is concatenation.
* `dataSource.models` is a plain object and is read with a table name the
  caller chooses, so a read of a key it does not hold yields what the key
  inherits from `Object.prototype` (`modelEntry`, `inheritedProperty`).
* A model class (`Handle`) answers each method call with the pair `(err, data)`
  that LoopBack hands to the method's callback.
* Callback-passing functions are embedded as functions returning what they pass
  to the callback.  `getStorageModel` calls its callback exactly once on every
  path and returns a `Resolution`; the operations return an `Outcome`: the
  model methods they invoked, the calls of their own callback, and the
  exception that escaped, if any.
* Provisioning (`beforeSave`) transforms a `System`: the application and the
  three kinds of files the hook rewrites.  Of LoopBack it uses that
  `app.dataSource` registers the datasource under its name and that
  `app.model(model, {dataSource})` puts the model into `app.models` and into the
  model map of that datasource.  Whether a statement of the `try` block throws,
  and what `autoupdate` and the file reads report, is a parameter
  (`ProvisionEnv`); a throw ends the block with `next(err)`.
-/

set_option autoImplicit false

namespace DbApiTask

/-! ## JavaScript values -/

/-- JavaScript values as far as `storage.js` inspects them.  `native what` is a
built-in function or object (such as `Object.prototype.toString`): truthy,
without enumerable own properties, and not a model class. -/
inductive JsVal where
  | undefined
  | null
  | bool (b : Bool)
  | num (n : Int)
  | str (s : String)
  | arr (items : List JsVal)
  | obj (fields : List (String × JsVal))
  | native (what : String)

namespace JsVal

/-- The boolean an `if (v)` sees: `undefined`, `null`, `false`, `0` and `""`
are falsy, everything else (every object and array included) is truthy. -/
def truthy : JsVal → Bool
  | undefined => false
  | null => false
  | bool b => b
  | num n => n != 0
  | str s => s != ""
  | arr _ => true
  | obj _ => true
  | native _ => true

/-- Own enumerable string-keyed properties of a value, in order: what a spread
`{...v}` copies.  `undefined`, `null`, booleans and numbers have none. -/
def ownProps : JsVal → List (String × JsVal)
  | obj fields => fields
  | arr items => items.enum.map (fun p => (toString p.1, p.2))
  | str s => s.toList.enum.map (fun p => (toString p.1, JsVal.str (String.singleton p.2)))
  | _ => []

/-- Own-property read `v[k]` as an option: `none` when `v` has no own property
`k`.  The keys `storage.js` reads from records (`id`, `url`, `profileKey`,
`taskMessages`, `0`) are not names inherited from `Object.prototype`, so for
them the own property is the property. -/
def prop? (v : JsVal) (k : String) : Option JsVal :=
  v.ownProps.lookup k

/-- Property read `v.k` on a value that is neither `null` nor `undefined`:
`undefined` when the property is absent. -/
def get (v : JsVal) (k : String) : JsVal :=
  (v.prop? k).getD undefined

end JsVal

/-- Keyed write `map[k] = v` on a string-keyed map kept in insertion order:
replaces the value in place when `k` is present, appends the entry otherwise. -/
def assign {α : Type} : List (String × α) → String → α → List (String × α)
  | [], k, v => [(k, v)]
  | (k', v') :: rest, k, v => if k' = k then (k, v) :: rest else (k', v') :: assign rest k v

/-- A plain JavaScript object: its own properties in insertion order. -/
abbrev JsObject := List (String × JsVal)

namespace JsObject

/-- Property read `o.k`: `undefined` when absent. -/
def get (o : JsObject) (k : String) : JsVal :=
  (o.lookup k).getD JsVal.undefined

/-- Property write `o.k = v`. -/
def set (o : JsObject) (k : String) (v : JsVal) : JsObject :=
  assign o k v

/-- Object spread `{...target, ...src}` onto an object under construction: for
every own key of `src`, in order, read the property from `src` and define it
on the target. -/
def spread (target : JsObject) (src : JsVal) : JsObject :=
  (src.ownProps.map Prod.fst).foldl (fun t k => set t k (src.get k)) target

end JsObject

/-! ## LoopBack objects -/

/-- A method call on a model class, with its arguments (the callback apart). -/
inductive Call where
  | find (filter : JsVal)
  | findById (id : JsVal)
  | create (data : JsVal)
  | update (filter : JsVal) (data : JsVal)
  | replaceOrCreate (data : JsVal)
  | destroyById (id : JsVal)
  | destroyAll (filter : JsVal)

/-- A LoopBack model class attached to a datasource.  `respond c` is the pair
`(err, data)` the framework passes to the callback of the call `c`. -/
structure Handle where
  modelName : String
  properties : JsVal
  respond : Call → JsVal × JsVal

/-- A registered datasource: its settings and its `models` map. -/
structure DataSource where
  settings : JsObject
  models : List (String × Handle)

/-- One element of `DbStructure`: a user table's name and its property
definitions (`table.structure`). -/
structure TableDef where
  name : String
  structureDef : JsVal

/-- A storage descriptor.  `DbStructure` is `none` when the stored value is not
an array (`Array.isArray` is false); an element of the array is `none` when
it is `null` or `undefined`. -/
structure StorageInstance where
  id : JsVal
  DbEngine : String
  DbName : String
  DbIp : JsVal
  DbPort : JsVal
  DbUserName : JsVal
  DbPassword : JsVal
  DbPrefixTable : String
  DbStructure : Option (List (Option TableDef))

/-- The application as `storage.js` sees it.  `findById id` is the pair
`(err, storage)` that `Storage.findById(id, cb)` passes to `cb`; `storage` is
`none` when the framework passes `null`.  The keys read from `datasources`
(`DbEngine + "_" + DbName`, with `DbEngine` a connector name) and from `models`
(`DbPrefixTable + "_account"`) are not names these objects inherit, so both
are read by own key. -/
structure App where
  findById : JsVal → JsVal × Option StorageInstance
  datasources : List (String × DataSource)
  models : List (String × Handle)

/-- A value passed as second argument of a callback: a plain value or a model
class. -/
inductive Arg where
  | val (v : JsVal)
  | model (h : Handle)

/-- Truthiness of a callback argument; a model class is an object, hence truthy. -/
def Arg.truthy : Arg → Bool
  | Arg.val v => v.truthy
  | Arg.model _ => true

/-- Registry reads performed while resolving a model. -/
inductive Access where
  | storageFindById (id : JsVal)
  | datasources (name : String)
  | models (datasource : String) (table : String)

/-- Whether a registry read is a read of some datasource's model map. -/
def Access.isModels : Access → Bool
  | Access.models _ _ => true
  | _ => false

/-- What `getStorageModel` passes to its callback `cb(err, model, dbPrefix)`,
together with the registry reads it made.  `dbPrefix` is `none` when the third
argument is not passed. -/
structure Resolution where
  err : JsVal
  model : Arg
  dbPrefix : Option String
  accesses : List Access

namespace Storage

/-- The property names every plain object inherits from `Object.prototype`. -/
def objectPrototypeKeys : List String :=
  ["constructor", "__defineGetter__", "__defineSetter__", "hasOwnProperty",
    "__lookupGetter__", "__lookupSetter__", "isPrototypeOf", "propertyIsEnumerable",
    "toString", "valueOf", "__proto__", "toLocaleString"]

/-- The value of `o[k]` for a plain object `o` without own property `k`: the
built-in inherited from `Object.prototype` when `k` names one, `undefined`
otherwise. -/
def inheritedProperty (k : String) : JsVal :=
  if k = "__proto__" then JsVal.native "Object.prototype"
  else if k ∈ objectPrototypeKeys then JsVal.native ("Object.prototype." ++ k)
  else JsVal.undefined

/-- The expression `dataSource.models[tableName]` on the plain object
`dataSource.models`: the model class stored under that key, else what the key
inherits from `Object.prototype`, else `undefined`. -/
def modelEntry (dataSource : DataSource) (tableName : String) : Arg :=
  match dataSource.models.lookup tableName with
  | some h => Arg.model h
  | none => Arg.val (inheritedProperty tableName)

/-- Lines 99-101 of `storage.js`: `account` and `task` are rewritten to
`DbPrefixTable + "_" + tableName`, any other name is kept. -/
def physicalTableName (storage : StorageInstance) (tableName : String) : String :=
  if tableName == "account" || tableName == "task" then
    storage.DbPrefixTable ++ "_" ++ tableName
  else tableName

/-- `Storage.getStorageModel(storageId, tableName, cb)`, lines 88-105. -/
def getStorageModel (app : App) (storageId : JsVal) (tableName : String) : Resolution :=
  match app.findById storageId with
  | (err, storage) =>
    if err.truthy then
      ⟨err, Arg.val JsVal.null, none, [Access.storageFindById storageId]⟩
    else
      match storage with
      | none => ⟨JsVal.null, Arg.val JsVal.null, none, [Access.storageFindById storageId]⟩
      | some storage =>
        let datasourceName := storage.DbEngine ++ "_" ++ storage.DbName
        match app.datasources.lookup datasourceName with
        | none =>
          ⟨JsVal.str ("datasource '" ++ datasourceName ++ "' is not found"), Arg.val JsVal.null,
            none, [Access.storageFindById storageId, Access.datasources datasourceName]⟩
        | some dataSource =>
          let tableName := physicalTableName storage tableName
          ⟨JsVal.null, modelEntry dataSource tableName, some storage.DbPrefixTable,
            [Access.storageFindById storageId, Access.datasources datasourceName,
              Access.models datasourceName tableName]⟩

end Storage

/-! ## Data operations -/

/-- One method invocation on a model class. -/
structure Invocation where
  model : String
  call : Call

/-- What running an operation produced: the model methods it invoked, in
order, the calls `cb(err, data)` of its own callback, in order, and the
exception that escaped it, if any. -/
structure Outcome where
  invocations : List Invocation
  callbacks : List (JsVal × Arg)
  thrown : Option String

namespace Outcome

/-- The statement `return cb(err, data)`. -/
def cb (err : JsVal) (data : Arg) : Outcome :=
  ⟨[], [(err, data)], none⟩

/-- An uncaught exception and nothing else. -/
def throw (what : String) : Outcome :=
  ⟨[], [], some what⟩

/-- Nothing happens: no method is invoked and the callback is never called. -/
def idle : Outcome :=
  ⟨[], [], none⟩

/-- An outcome preceded by a method invocation. -/
def afterInvocation (i : Invocation) (o : Outcome) : Outcome :=
  { o with invocations := i :: o.invocations }

/-- An outcome preceded by calls of the callback. -/
def afterCallbacks (calls : List (JsVal × Arg)) (o : Outcome) : Outcome :=
  { o with callbacks := calls ++ o.callbacks }

end Outcome

/-- The `TypeError` raised by a property read or method call on `null`,
`undefined` or a value without that method. -/
def typeErrorText : String := "TypeError"

/-- The `TypeError` object a promise rejection hands to `.catch`. -/
def typeErrorValue : JsVal := JsVal.obj [("name", JsVal.str "TypeError")]

/-- Whether a value is `null` or `undefined`, on which a property read throws. -/
def JsVal.nullish : JsVal → Bool
  | JsVal.undefined => true
  | JsVal.null => true
  | _ => false

/-- The expression `model.method(args, callback)`: when `model` is a model
class the method is invoked and `callback` runs on its response; on any other
value the call throws a `TypeError` and `callback` never runs. -/
def callMethod (model : Arg) (c : Call) (callback : JsVal → JsVal → Outcome) : Outcome :=
  match model with
  | Arg.model h =>
    Outcome.afterInvocation ⟨h.modelName, c⟩ (callback (h.respond c).1 (h.respond c).2)
  | Arg.val _ => Outcome.throw typeErrorText

/-- External collaborators of `importAccounts`: `download url` is the error
argument of the completion callback of `download` (`none` when that callback is
never called), `loadCSV` is the settled promise of `loadCSV` (rejected with an
error, or resolved with the parsed accounts). -/
structure ImportEnv where
  download : JsVal → Option JsVal
  loadCSV : Except JsVal JsVal

namespace Storage

/-- The expression `Storage.app.models[name]`. -/
def appModel (app : App) (name : String) : Arg :=
  match app.models.lookup name with
  | some h => Arg.model h
  | none => Arg.val JsVal.undefined

/-- The expression `dbPrefix + "_account"`, where `dbPrefix` is the third
argument of the resolution callback (`undefined` when it was not passed). -/
def accountModelName (dbPrefix : Option String) : String :=
  dbPrefix.getD "undefined" ++ "_account"

/-- `Storage.importAccounts(storageId, body, cb)`, lines 193-216. -/
def importAccounts (env : ImportEnv) (app : App) (storageId : JsVal) (body : JsObject) :
    Outcome :=
  let r := getStorageModel app storageId "account"
  if !(body.get "url").truthy then Outcome.cb (JsVal.str "url not provided") (Arg.val JsVal.undefined)
  else
    match env.download (body.get "url") with
    | none => Outcome.idle
    | some err =>
      if err.truthy then Outcome.cb err (Arg.val err)
      else
        match env.loadCSV with
        | Except.error e => Outcome.cb e (Arg.val (JsVal.bool false))
        | Except.ok accounts =>
          match r.model with
          | Arg.model h =>
            callMethod (Arg.model h) (Call.create accounts)
              (fun err data => Outcome.cb err (Arg.val data))
          | Arg.val _ => Outcome.cb typeErrorValue (Arg.val (JsVal.bool false))

/-- `Storage.getOneAccount(storageId, accountId, cb)`, lines 234-247.  The
resolution callback runs after the `try` block has been left, so the `catch`
clause never sees what it throws. -/
def getOneAccount (app : App) (storageId accountId : JsVal) : Outcome :=
  let r := getStorageModel app storageId "account"
  if r.err.truthy then Outcome.cb r.err (Arg.val JsVal.null)
  else if !r.model.truthy then Outcome.cb (JsVal.str "no such model") (Arg.val JsVal.null)
  else
    callMethod r.model
      (Call.find (JsVal.obj [("where", JsVal.obj [("id", accountId)])]))
      (fun _ result =>
        if result.nullish then Outcome.throw typeErrorText
        else Outcome.cb (JsVal.bool false) (Arg.val (result.get "0")))

/-- `Storage.createOrUpdateAccount(storageId, body, cb)`, lines 264-276. -/
def createOrUpdateAccount (app : App) (storageId : JsVal) (body : JsObject) : Outcome :=
  let r := getStorageModel app storageId "account"
  if (body.get "id").truthy then
    callMethod r.model (Call.findById (body.get "id")) (fun err _ =>
      Outcome.afterCallbacks (if err.truthy then [(err, Arg.val JsVal.null)] else [])
        (callMethod r.model
          (Call.update (JsVal.obj [("id", body.get "id")]) (JsVal.obj body))
          (fun err data =>
            if err.truthy then Outcome.cb err (Arg.val JsVal.null)
            else Outcome.cb JsVal.null (Arg.val data))))
  else
    callMethod r.model (Call.create (JsVal.obj body)) (fun err data =>
      if err.truthy then Outcome.cb err (Arg.val JsVal.null)
      else Outcome.cb JsVal.null (Arg.val data))

/-- `Storage.deleteOneAccount(storageId, accountId, cb)`, lines 293-303. -/
def deleteOneAccount (app : App) (storageId accountId : JsVal) : Outcome :=
  let r := getStorageModel app storageId "account"
  if r.err.truthy then Outcome.cb r.err (Arg.val JsVal.null)
  else if !r.model.truthy then Outcome.cb (JsVal.str "model not exist") (Arg.val JsVal.null)
  else
    callMethod r.model (Call.destroyById accountId)
      (fun err data => Outcome.cb err (Arg.val data))

/-- `Storage.getAllAccounts(storageId, cb)`, lines 319-329. -/
def getAllAccounts (app : App) (storageId : JsVal) : Outcome :=
  let r := getStorageModel app storageId "account"
  if r.err.truthy then Outcome.cb r.err (Arg.val JsVal.null)
  else if !r.model.truthy then
    Outcome.cb (JsVal.str "account model not exist") (Arg.val JsVal.null)
  else
    callMethod r.model (Call.find (JsVal.obj []))
      (fun err data => Outcome.cb err (Arg.val data))

/-- The object literal `{ ...oldData.taskMessages, ...body.taskMessages }` of
line 357. -/
def mergedTaskMessages (oldData : JsVal) (body : JsObject) : JsObject :=
  JsObject.spread (JsObject.spread [] (oldData.get "taskMessages")) (body.get "taskMessages")

/-- `Storage.createOrUpdateTask(id, accountId, body, cb)`, lines 345-368. -/
def createOrUpdateTask (app : App) (id accountId : JsVal) (body : JsObject) : Outcome :=
  let r := getStorageModel app id "task"
  if r.err.truthy || !r.model.truthy then Outcome.cb r.err r.model
  else
    callMethod (appModel app (accountModelName r.dbPrefix)) (Call.findById accountId)
      (fun err data =>
        if err.truthy || !data.truthy then Outcome.cb err (Arg.val JsVal.null)
        else if (body.get "id").truthy then
          callMethod r.model (Call.findById (body.get "id")) (fun err oldData =>
            Outcome.afterCallbacks (if err.truthy then [(err, Arg.val JsVal.null)] else [])
              (if oldData.nullish then Outcome.throw typeErrorText
              else
                callMethod r.model
                  (Call.update
                    (JsVal.obj [("id", body.get "id"), ("profileKey", data.get "profileKey")])
                    (JsVal.obj
                      (body.set "taskMessages" (JsVal.obj (mergedTaskMessages oldData body)))))
                  (fun err data =>
                    if err.truthy then Outcome.cb err (Arg.val (JsVal.arr []))
                    else Outcome.cb JsVal.null (Arg.val data))))
        else
          callMethod r.model
            (Call.create (JsVal.obj
              ((JsObject.spread [] (JsVal.obj body)).set "profileKey" (data.get "profileKey"))))
            (fun err data =>
              if err.truthy then Outcome.cb err (Arg.val (JsVal.arr []))
              else Outcome.cb JsVal.null (Arg.val data)))

/-- `Storage.getAllTasks(id, accountId, cb)`, lines 385-397. -/
def getAllTasks (app : App) (id accountId : JsVal) : Outcome :=
  let r := getStorageModel app id "task"
  if r.err.truthy || !r.model.truthy then Outcome.cb r.err r.model
  else
    callMethod (appModel app (accountModelName r.dbPrefix)) (Call.findById accountId)
      (fun err data =>
        if err.truthy || !data.truthy then Outcome.cb err (Arg.val data)
        else
          callMethod r.model (Call.find (JsVal.obj [("profileKey", data.get "profileKey")]))
            (fun err data =>
              if err.truthy then Outcome.cb err (Arg.val (JsVal.arr []))
              else Outcome.cb JsVal.null (Arg.val data)))

/-- `Storage.deleteAllTasks(id, accountId, cb)`, lines 413-425. -/
def deleteAllTasks (app : App) (id accountId : JsVal) : Outcome :=
  let r := getStorageModel app id "task"
  if r.err.truthy || !r.model.truthy then Outcome.cb r.err r.model
  else
    callMethod (appModel app (accountModelName r.dbPrefix)) (Call.findById accountId)
      (fun err data =>
        if err.truthy || !data.truthy then Outcome.cb err (Arg.val JsVal.null)
        else
          callMethod r.model
            (Call.destroyAll (JsVal.obj [("profileKey", data.get "profileKey")]))
            (fun err data =>
              if err.truthy then Outcome.cb err (Arg.val JsVal.null)
              else Outcome.cb JsVal.null (Arg.val data)))

/-- `Storage.createOrUpdateData(storageId, tableName, body, cb)`, lines 442-449. -/
def createOrUpdateData (app : App) (storageId : JsVal) (tableName : String) (body : JsObject) :
    Outcome :=
  let r := getStorageModel app storageId tableName
  if r.err.truthy || !r.model.truthy then Outcome.cb r.err r.model
  else
    callMethod r.model (Call.replaceOrCreate (JsVal.obj body))
      (fun err data => Outcome.cb err (Arg.val data))

/-- `Storage.getAllData(storageId, tableName, cb)`, lines 466-473. -/
def getAllData (app : App) (storageId : JsVal) (tableName : String) : Outcome :=
  let r := getStorageModel app storageId tableName
  if r.err.truthy || !r.model.truthy then Outcome.cb r.err r.model
  else
    callMethod r.model (Call.find (JsVal.obj []))
      (fun err data => Outcome.cb err (Arg.val data))

/-- `Storage.deleteAllData(storageId, tableName, cb)`, lines 489-496. -/
def deleteAllData (app : App) (storageId : JsVal) (tableName : String) : Outcome :=
  let r := getStorageModel app storageId tableName
  if r.err.truthy || !r.model.truthy then Outcome.cb r.err r.model
  else
    callMethod r.model (Call.destroyAll (JsVal.obj []))
      (fun err data => Outcome.cb err (Arg.val data))

end Storage

/-- The record a method call writes, if it is a write. -/
def Call.written : Call → Option JsVal
  | Call.create data => some data
  | Call.update _ data => some data
  | Call.replaceOrCreate data => some data
  | _ => none

/-- The records written by an operation, in order. -/
def Outcome.written (o : Outcome) : List JsVal :=
  o.invocations.filterMap (fun i => i.call.written)

/-- Whether some call of the operation's callback carried a truthy error. -/
def Outcome.reportsError (o : Outcome) : Bool :=
  o.callbacks.any (fun c => c.1.truthy)

/-! ## Provisioning (the `before save` hook) -/

/-- External collaborators of provisioning.
* `dataSource name settings` is the exception `app.dataSource(name, settings)`
  throws (an unknown connector, say), `none` when it returns;
* `defineModel datasource name properties` is the exception thrown while the
  model `name` is created and attached (`loopback.createModel`, `app.model`,
  the dispatch of `autoupdate`), `none` when all three return;
* `systemStructure engine name` is the parsed content of
  `db_modules/<engine>/<name>.json`, or the exception that reading or parsing
  it throws;
* `autoupdate datasource name` is the pair `(err, result)` that
  `datasource.autoupdate(name, cb)` passes to `cb`;
* `saveDatasource name` is the exception `saveDatasourceToFile` throws while
  reading, parsing or writing `datasources.json`, `none` when it returns;
* `respond datasource name` answers the method calls of a model created under
  that name and attached to that datasource. -/
structure ProvisionEnv where
  dataSource : String → JsObject → Option JsVal
  defineModel : String → String → JsVal → Option JsVal
  systemStructure : String → String → Except JsVal JsVal
  autoupdate : String → String → JsVal × JsVal
  saveDatasource : String → Option JsVal
  respond : String → String → Call → JsVal × JsVal

/-- The application together with the files provisioning rewrites:
`server/datasources.json`, `server/model-config.json`, and the files
`common/models/<name>.json` keyed by `<name>`. -/
structure System where
  app : App
  datasourcesFile : JsObject
  modelConfigFile : JsObject
  modelFiles : JsObject

/-- Where a run of statements inside the `try` block of the hook stands: the
system reached, and the exception that ended the run, if one was thrown.  For
the whole hook `raised` is the error passed to `next`. -/
structure SaveResult where
  system : System
  raised : Option JsVal

/-- Sequencing inside the `try` block: once a statement has thrown, the
statements after it are skipped. -/
def SaveResult.andThen (r : SaveResult) (rest : System → SaveResult) : SaveResult :=
  match r.raised with
  | some _ => r
  | none => rest r.system

namespace Storage

/-- `app.dataSource(name, settings)`: a new datasource registered in
`app.datasources` under `name`. -/
def registerDataSource (app : App) (name : String) (settings : JsObject) : App :=
  { app with datasources := assign app.datasources name ⟨settings, []⟩ }

/-- `app.model(model, { dataSource: datasourceName })`: the model is registered
in `app.models` and attached to the datasource, whose model map then holds it
under the model's name. -/
def attachModel (app : App) (model : Handle) (datasourceName : String) : App :=
  { app with
    models := assign app.models model.modelName model
    datasources :=
      match app.datasources.lookup datasourceName with
      | some ds =>
        assign app.datasources datasourceName
          { ds with models := assign ds.models model.modelName model }
      | none => app.datasources }

/-- `saveDatasourceToFile(datasourceName, datasourceJson)`, lines 108-113, when
it does not throw. -/
def saveDatasourceToFile (sys : System) (datasourceName : String) (datasourceJson : JsObject) :
    System :=
  { sys with datasourcesFile := sys.datasourcesFile.set datasourceName (JsVal.obj datasourceJson) }

/-- `saveModelToFile(name, model)`, lines 136-147. -/
def saveModelToFile (sys : System) (name : String) (model : Handle) : System :=
  { sys with
    modelFiles := sys.modelFiles.set name
      (JsVal.obj [("name", JsVal.str name), ("base", JsVal.str "PersistedModel"),
        ("properties", model.properties)]) }

/-- `associateModelToDatasource(modelName, datasourceName)`, lines 149-162. -/
def associateModelToDatasource (sys : System) (modelName datasourceName : String) : System :=
  { sys with
    modelConfigFile := sys.modelConfigFile.set modelName
      (JsVal.obj [("dataSource", JsVal.str datasourceName), ("public", JsVal.bool true)]) }

/-- Lines 55-70 and 122-133 when nothing throws: the model `name` is created
and attached to the datasource, then `autoupdate` runs; its completion callback
ignores its `err` argument and records the model in both files.  The callback
is run where it is dispatched: it touches only the two model files, which
nothing else in the hook reads or writes. -/
def installModel (env : ProvisionEnv) (sys : System) (datasourceName name : String)
    (properties : JsVal) : System :=
  let model : Handle := ⟨name, properties, env.respond datasourceName name⟩
  let sys := { sys with app := attachModel sys.app model datasourceName }
  match env.autoupdate datasourceName name with
  | (_, _) => associateModelToDatasource (saveModelToFile sys name model) name datasourceName

/-- Lines 55-70 and 122-133: creating and attaching the model may throw, which
leaves the system as it was; otherwise the model is installed. -/
def provisionModel (env : ProvisionEnv) (sys : System) (datasourceName name : String)
    (properties : JsVal) : SaveResult :=
  match env.defineModel datasourceName name properties with
  | some e => ⟨sys, some e⟩
  | none => ⟨installModel env sys datasourceName name properties, none⟩

/-- The loop `ctx.instance.DbStructure.forEach(...)` of lines 52-71.  An
element that is `null` or `undefined` makes `table.name` throw a `TypeError`;
a throw ends the loop, the tables before it stay provisioned. -/
def provisionTables (env : ProvisionEnv) (datasourceName : String) :
    List (Option TableDef) → System → SaveResult
  | [], sys => ⟨sys, none⟩
  | none :: _, sys => ⟨sys, some typeErrorValue⟩
  | some table :: rest, sys =>
    (provisionModel env sys datasourceName table.name table.structureDef).andThen
      (fun sys => provisionTables env datasourceName rest sys)

/-- `createSystemModel(engineType, DbPrefixTable, modelName, datasourceName,
datasource, app)`, lines 116-134. -/
def createSystemModel (env : ProvisionEnv) (sys : System) (engineType DbPrefixTable
    modelName datasourceName : String) : SaveResult :=
  match env.systemStructure engineType modelName with
  | Except.error e => ⟨sys, some e⟩
  | Except.ok structureDef =>
    provisionModel env sys datasourceName (DbPrefixTable ++ "_" ++ modelName) structureDef

/-- The settings object `datasourceStructure` of lines 31-40. -/
def datasourceStructure (inst : StorageInstance) : JsObject :=
  [("name", JsVal.str (inst.DbEngine ++ "_" ++ inst.DbName)),
    ("connector", JsVal.str inst.DbEngine), ("host", inst.DbIp), ("port", inst.DbPort),
    ("database", JsVal.str inst.DbName), ("username", inst.DbUserName),
    ("password", inst.DbPassword), ("createDatabase", JsVal.bool true)]

/-- `Storage.observe("before save", ...)`, lines 19-86, on `ctx.instance = inst`.
Log lines and the no-op `error` listener of the datasource are left out.  Every
statement of the `try` block that throws ends the block with `next(err)`; when
`DbStructure` is not an array the hook returns right after registering the
datasource. -/
def beforeSave (env : ProvisionEnv) (sys : System) (inst : StorageInstance) : SaveResult :=
  let engineType := inst.DbEngine
  let datasourceName := engineType ++ "_" ++ inst.DbName
  match env.dataSource datasourceName (datasourceStructure inst) with
  | some e => ⟨sys, some e⟩
  | none =>
    let sys := { sys with
      app := registerDataSource sys.app datasourceName (datasourceStructure inst) }
    match inst.DbStructure with
    | none => ⟨sys, none⟩
    | some tables =>
      (provisionTables env datasourceName tables sys).andThen fun sys =>
      (createSystemModel env sys engineType inst.DbPrefixTable "account"
        datasourceName).andThen fun sys =>
      (createSystemModel env sys engineType inst.DbPrefixTable "task"
        datasourceName).andThen fun sys =>
      match env.saveDatasource datasourceName with
      | some e => ⟨sys, some e⟩
      | none => ⟨saveDatasourceToFile sys datasourceName (datasourceStructure inst), none⟩

/-- The model-config entry written for every model of the datasource `n`. -/
def configEntry (n : String) : JsVal :=
  JsVal.obj [("dataSource", JsVal.str n), ("public", JsVal.bool true)]

/-- The datasource `n` is registered with settings `st`. -/
def Connected (sys : System) (n : String) (st : JsObject) : Prop :=
  ∃ ds, sys.app.datasources.lookup n = some ds ∧ ds.settings = st

/-- The system with the datasource of `inst` registered, as line 42 leaves it. -/
def withDataSource (sys : System) (inst : StorageInstance) : System :=
  { sys with
    app := (registerDataSource sys.app (inst.DbEngine ++ "_" ++ inst.DbName)
      (datasourceStructure inst)) }

/-- The system after the given tables have been installed one after the other. -/
def installTables (env : ProvisionEnv) (n : String) (tables : List TableDef) (sys : System) :
    System :=
  tables.foldl (fun sys table => installModel env sys n table.name table.structureDef) sys

end Storage

/-- Whether a callback argument is a model class. -/
def Arg.isModel : Arg → Bool
  | Arg.model _ => true
  | Arg.val _ => false

/-- The datasource name a registry read addresses, if it addresses one. -/
def Access.datasource? : Access → Option String
  | Access.datasources name => some name
  | Access.models name _ => some name
  | Access.storageFindById _ => none

/-! ## Example data -/

/-- A LoopBack model class whose every call succeeds with no data. -/
def Examples.silentHandle (name : String) : Handle :=
  ⟨name, JsVal.obj [], fun _ => (JsVal.null, JsVal.null)⟩

/-- A storage descriptor for a MySQL tenant with no user tables. -/
def Examples.shop : StorageInstance :=
  { id := JsVal.num 1, DbEngine := "mysql", DbName := "shop", DbIp := JsVal.str "127.0.0.1",
    DbPort := JsVal.num 3306, DbUserName := JsVal.str "root", DbPassword := JsVal.str "secret",
    DbPrefixTable := "t1", DbStructure := some [] }

/-- The `Storage` table holding the single row `shop`. -/
def Examples.findShop : JsVal → JsVal × Option StorageInstance
  | JsVal.num 1 => (JsVal.null, some Examples.shop)
  | _ => (JsVal.null, none)

/-- The datasource of `shop`, holding the two system models. -/
def Examples.shopDatasource : DataSource :=
  ⟨[], [("t1_account", Examples.silentHandle "t1_account"),
    ("t1_task", Examples.silentHandle "t1_task")]⟩

/-- An application where `shop` is stored and its datasource is registered
with the two system models. -/
def Examples.shopApp : App :=
  { findById := Examples.findShop,
    datasources := [("mysql_shop", Examples.shopDatasource)],
    models := [("t1_account", Examples.silentHandle "t1_account"),
      ("t1_task", Examples.silentHandle "t1_task")] }

/-- An application where `shop` is stored and no datasource is registered. -/
def Examples.offlineApp : App :=
  { findById := Examples.findShop, datasources := [], models := [] }

/-- An account record with profile key `acct`. -/
def Examples.account : JsVal :=
  JsVal.obj [("id", JsVal.num 3), ("profileKey", JsVal.str "acct")]

/-- A stored task with id 5 and `taskMessages: {a: 0, b: 2}`. -/
def Examples.storedTask : JsVal :=
  JsVal.obj [("id", JsVal.num 5), ("profileKey", JsVal.str "acct"),
    ("taskMessages", JsVal.obj [("a", JsVal.num 0), ("b", JsVal.num 2)])]

/-- The account model of `shop`: it holds the single account 3. -/
def Examples.accountHandle : Handle :=
  ⟨"t1_account", JsVal.obj [], fun c =>
    match c with
    | Call.findById (JsVal.num 3) => (JsVal.null, Examples.account)
    | _ => (JsVal.null, JsVal.null)⟩

/-- The task model of `shop`: it holds the single task 5. -/
def Examples.taskHandle : Handle :=
  ⟨"t1_task", JsVal.obj [], fun c =>
    match c with
    | Call.findById (JsVal.num 5) => (JsVal.null, Examples.storedTask)
    | Call.update _ data => (JsVal.null, data)
    | Call.create data => (JsVal.null, data)
    | _ => (JsVal.null, JsVal.null)⟩

/-- The datasource of `shop` with populated account and task models. -/
def Examples.liveDatasource : DataSource :=
  ⟨[], [("t1_account", Examples.accountHandle), ("t1_task", Examples.taskHandle)]⟩

/-- The `shop` application with populated account and task models. -/
def Examples.liveApp : App :=
  { findById := Examples.findShop,
    datasources := [("mysql_shop", Examples.liveDatasource)],
    models := [("t1_account", Examples.accountHandle), ("t1_task", Examples.taskHandle)] }

/-- A user model `widgets` of `shop`. -/
def Examples.widgetsHandle : Handle :=
  ⟨"widgets", JsVal.obj [("label", JsVal.str "string")], fun c =>
    match c with
    | Call.find _ => (JsVal.null, JsVal.arr [])
    | _ => (JsVal.null, JsVal.null)⟩

/-- The datasource of `shop` with the user model `widgets` beside the system
models. -/
def Examples.registryDatasource : DataSource :=
  ⟨[], [("widgets", Examples.widgetsHandle), ("t1_account", Examples.accountHandle),
    ("t1_task", Examples.taskHandle)]⟩

/-- The `shop` application with the user model `widgets`. -/
def Examples.registryApp : App :=
  { findById := Examples.findShop,
    datasources := [("mysql_shop", Examples.registryDatasource)],
    models := [("widgets", Examples.widgetsHandle), ("t1_account", Examples.accountHandle),
      ("t1_task", Examples.taskHandle)] }

/-- An update of task 5 carrying `taskMessages: {a: 1}`. -/
def Examples.updateBody : JsObject :=
  [("id", JsVal.num 5), ("taskMessages", JsVal.obj [("a", JsVal.num 1)])]

/-- An update of task 5 that carries a profile key of its own. -/
def Examples.foreignBody : JsObject :=
  [("id", JsVal.num 5), ("profileKey", JsVal.str "intruder")]

/-- A new task without id, carrying a profile key of its own. -/
def Examples.newTaskBody : JsObject :=
  [("title", JsVal.str "call back"), ("profileKey", JsVal.str "intruder")]

/-- A system with no datasource, no model and empty files, whose `Storage`
table answers with `find`. -/
def Examples.emptySystem (find : JsVal → JsVal × Option StorageInstance) : System :=
  { app := { findById := find, datasources := [], models := [] },
    datasourcesFile := [], modelConfigFile := [], modelFiles := [] }

/-- A descriptor with three user tables. -/
def Examples.catalog : StorageInstance :=
  { id := JsVal.num 2, DbEngine := "mysql", DbName := "catalog", DbIp := JsVal.str "127.0.0.1",
    DbPort := JsVal.num 3306, DbUserName := JsVal.str "root", DbPassword := JsVal.str "secret",
    DbPrefixTable := "t2",
    DbStructure := some [some ⟨"orders", JsVal.obj []⟩, some ⟨"widgets", JsVal.obj []⟩,
      some ⟨"invoices", JsVal.obj []⟩] }

/-- The `Storage` table holding the single row `catalog`. -/
def Examples.findCatalog : JsVal → JsVal × Option StorageInstance
  | JsVal.num 2 => (JsVal.null, some Examples.catalog)
  | _ => (JsVal.null, none)

/-- An environment where nothing throws, the system definitions load and
`autoupdate` fails for the table `widgets` only. -/
def Examples.widgetsFail : ProvisionEnv :=
  { dataSource := fun _ _ => none,
    defineModel := fun _ _ _ => none,
    systemStructure := fun _ _ => Except.ok (JsVal.obj []),
    autoupdate := fun _ name =>
      if name = "widgets" then (JsVal.str "ER_CANT_CREATE_TABLE", JsVal.undefined)
      else (JsVal.null, JsVal.null),
    saveDatasource := fun _ => none,
    respond := fun _ _ _ => (JsVal.null, JsVal.null) }

/-! ## Objects and registries -/

theorem lookup_assign_self {α : Type} (o : List (String × α)) (k : String) (v : α) :
    (assign o k v).lookup k = some v := by
  induction o with
  | nil => simp [assign, List.lookup]
  | cons p rest ih =>
    obtain ⟨k', v'⟩ := p
    by_cases h : k' = k
    · simp [assign, h, List.lookup]
    · have h' : (k == k') = false := by simpa using fun e => h e.symm
      simp [assign, h, List.lookup, h', ih]

theorem lookup_assign_of_ne {α : Type} (o : List (String × α)) (k k' : String) (v : α)
    (hne : k' ≠ k) : (assign o k v).lookup k' = o.lookup k' := by
  induction o with
  | nil =>
    have h' : (k' == k) = false := by simpa using hne
    simp [assign, List.lookup, h']
  | cons p rest ih =>
    obtain ⟨k0, v0⟩ := p
    by_cases h : k0 = k
    · subst h
      have h' : (k' == k0) = false := by simpa using hne
      simp [assign, List.lookup, h']
    · by_cases h2 : k' = k0
      · subst h2
        simp [assign, h, List.lookup]
      · have h' : (k' == k0) = false := by simpa using h2
        simp [assign, h, List.lookup, h', ih]

theorem JsVal.truthy_null : JsVal.null.truthy = false := rfl

namespace JsObject

theorem lookup_set_self (o : JsObject) (k : String) (v : JsVal) :
    (set o k v).lookup k = some v :=
  lookup_assign_self o k v

theorem lookup_set_of_ne (o : JsObject) (k k' : String) (v : JsVal) (hne : k' ≠ k) :
    (set o k v).lookup k' = o.lookup k' :=
  lookup_assign_of_ne o k k' v hne

theorem get_set_self (o : JsObject) (k : String) (v : JsVal) : get (set o k v) k = v := by
  simp [get, lookup_set_self]

theorem get_set_of_ne (o : JsObject) (k k' : String) (v : JsVal) (hne : k' ≠ k) :
    get (set o k v) k' = get o k' := by
  simp [get, lookup_set_of_ne o k k' v hne]

theorem lookup_foldl_set (f : String → JsVal) (ks : List String) (t : JsObject) (k : String) :
    (ks.foldl (fun t k => set t k (f k)) t).lookup k
      = if k ∈ ks then some (f k) else t.lookup k := by
  induction ks generalizing t with
  | nil => simp
  | cons k0 rest ih =>
    simp only [List.foldl_cons, ih, List.mem_cons]
    by_cases h1 : k ∈ rest
    · simp [h1]
    · by_cases h2 : k = k0
      · subst h2
        simp [h1, lookup_set_self]
      · simp [h1, h2, lookup_set_of_ne _ _ _ _ h2]

theorem mem_keys_iff (o : List (String × JsVal)) (k : String) :
    k ∈ o.map Prod.fst ↔ (o.lookup k).isSome = true := by
  induction o with
  | nil => simp
  | cons p rest ih =>
    obtain ⟨k0, v0⟩ := p
    by_cases h : k = k0
    · subst h
      simp [List.lookup]
    · have h' : (k == k0) = false := by simpa using h
      simp [List.lookup, h, h', ih]

/-- A spread copies every own property of the source and keeps the target's
other properties. -/
theorem lookup_spread (t : JsObject) (src : JsVal) (k : String) :
    (spread t src).lookup k = (src.prop? k).orElse (fun _ => t.lookup k) := by
  unfold spread
  rw [lookup_foldl_set]
  by_cases h : k ∈ src.ownProps.map Prod.fst
  · have h' := (mem_keys_iff _ _).1 h
    obtain ⟨v, hv⟩ := Option.isSome_iff_exists.1 h'
    simp [h, JsVal.get, JsVal.prop?, hv]
  · have h' : src.ownProps.lookup k = none := by
      cases hl : src.ownProps.lookup k with
      | none => rfl
      | some v => exact absurd ((mem_keys_iff _ _).2 (by simp [hl])) h
    simp [h, JsVal.prop?, h']

end JsObject

/-! ## Resolution theorems -/

namespace Storage

theorem physicalTableName_account (s : StorageInstance) :
    physicalTableName s "account" = s.DbPrefixTable ++ "_account" := by
  simp [physicalTableName, String.append_assoc]

theorem physicalTableName_task (s : StorageInstance) :
    physicalTableName s "task" = s.DbPrefixTable ++ "_task" := by
  simp [physicalTableName, String.append_assoc]

theorem physicalTableName_other (s : StorageInstance) (t : String)
    (ha : t ≠ "account") (ht : t ≠ "task") : physicalTableName s t = t := by
  simp [physicalTableName, ha, ht]

/-- The resolution of a stored descriptor whose datasource is registered. -/
theorem getStorageModel_registered (app : App) (s : StorageInstance) (ds : DataSource)
    (t : String) (hs : app.findById s.id = (JsVal.null, some s))
    (hd : app.datasources.lookup (s.DbEngine ++ "_" ++ s.DbName) = some ds) :
    getStorageModel app s.id t =
      ⟨JsVal.null, modelEntry ds (physicalTableName s t), some s.DbPrefixTable,
        [Access.storageFindById s.id, Access.datasources (s.DbEngine ++ "_" ++ s.DbName),
          Access.models (s.DbEngine ++ "_" ++ s.DbName) (physicalTableName s t)]⟩ := by
  simp [getStorageModel, hs, hd, JsVal.truthy]

/-- A name ending in the given text ends in its last character. -/
theorem getLast?_data_append (p t : String) (c : Char) (h : t.data.getLast? = some c) :
    (p ++ t).data.getLast? = some c := by
  rw [String.data_append]
  cases ht : t.data with
  | nil => rw [ht] at h; simp at h
  | cons a l =>
    rw [ht] at h
    rw [List.getLast?_append, h]
    rfl

/-- No name of the form `DbPrefixTable + "_account"` is inherited from
`Object.prototype`. -/
theorem inheritedProperty_account (p : String) :
    inheritedProperty (p ++ "_account") = JsVal.undefined := by
  have hl := getLast?_data_append p "_account" (Char.ofNat 116) (by decide)
  have hk : ∀ k ∈ "__proto__" :: objectPrototypeKeys,
      k.data.getLast? ≠ some (Char.ofNat 116) := by decide
  have h1 : p ++ "_account" ≠ "__proto__" := fun e => hk _ (by simp) (e ▸ hl)
  have h2 : p ++ "_account" ∉ objectPrototypeKeys :=
    fun hm => hk _ (List.mem_cons_of_mem _ hm) hl
  simp [inheritedProperty, h1, h2]

/-- No name of the form `DbPrefixTable + "_task"` is inherited from
`Object.prototype`. -/
theorem inheritedProperty_task (p : String) :
    inheritedProperty (p ++ "_task") = JsVal.undefined := by
  have hl := getLast?_data_append p "_task" (Char.ofNat 107) (by decide)
  have hk : ∀ k ∈ "__proto__" :: objectPrototypeKeys,
      k.data.getLast? ≠ some (Char.ofNat 107) := by decide
  have h1 : p ++ "_task" ≠ "__proto__" := fun e => hk _ (by simp) (e ▸ hl)
  have h2 : p ++ "_task" ∉ objectPrototypeKeys :=
    fun hm => hk _ (List.mem_cons_of_mem _ hm) hl
  simp [inheritedProperty, h1, h2]

/-- C1: for a stored descriptor whose datasource is registered, whatever its
`DbStructure`, resolving `account` reports no error and returns what the
datasource's model map holds under `DbPrefixTable + "_account"` (that very
model class, or `undefined` when the map has none), resolving `task` does the
same under `DbPrefixTable + "_task"`, and every other table name is looked up
unchanged: the model class the map holds under that name, else what the name
inherits from `Object.prototype`, which is `undefined` for every name that is
not inherited. -/
theorem getStorageModel_system_tables_prefixed (app : App) (s : StorageInstance)
    (ds : DataSource) (hs : app.findById s.id = (JsVal.null, some s))
    (hd : app.datasources.lookup (s.DbEngine ++ "_" ++ s.DbName) = some ds) :
    ((getStorageModel app s.id "account").err = JsVal.null ∧
      (∀ h, ds.models.lookup (s.DbPrefixTable ++ "_account") = some h →
        (getStorageModel app s.id "account").model = Arg.model h) ∧
      (ds.models.lookup (s.DbPrefixTable ++ "_account") = none →
        (getStorageModel app s.id "account").model = Arg.val JsVal.undefined)) ∧
    ((getStorageModel app s.id "task").err = JsVal.null ∧
      (∀ h, ds.models.lookup (s.DbPrefixTable ++ "_task") = some h →
        (getStorageModel app s.id "task").model = Arg.model h) ∧
      (ds.models.lookup (s.DbPrefixTable ++ "_task") = none →
        (getStorageModel app s.id "task").model = Arg.val JsVal.undefined)) ∧
    ∀ t : String, t ≠ "account" → t ≠ "task" →
      (getStorageModel app s.id t).err = JsVal.null ∧
      (∀ h, ds.models.lookup t = some h → (getStorageModel app s.id t).model = Arg.model h) ∧
      (ds.models.lookup t = none →
        (getStorageModel app s.id t).model = Arg.val (inheritedProperty t)) ∧
      (ds.models.lookup t = none → t ≠ "__proto__" → t ∉ objectPrototypeKeys →
        (getStorageModel app s.id t).model = Arg.val JsVal.undefined) := by
  refine ⟨?_, ?_, ?_⟩
  · rw [getStorageModel_registered app s ds "account" hs hd, physicalTableName_account]
    refine ⟨rfl, fun h hm => ?_, fun hm => ?_⟩
    · simp [modelEntry, hm]
    · simp [modelEntry, hm, inheritedProperty_account]
  · rw [getStorageModel_registered app s ds "task" hs hd, physicalTableName_task]
    refine ⟨rfl, fun h hm => ?_, fun hm => ?_⟩
    · simp [modelEntry, hm]
    · simp [modelEntry, hm, inheritedProperty_task]
  · intro t ha ht
    rw [getStorageModel_registered app s ds t hs hd, physicalTableName_other s t ha ht]
    refine ⟨rfl, fun h hm => ?_, fun hm => ?_, fun hm h1 h2 => ?_⟩
    · simp [modelEntry, hm]
    · simp [modelEntry, hm]
    · simp [modelEntry, hm, inheritedProperty, h1, h2]

/-- Witness for C1 on the `shop` tenant, whose account and task models differ:
`account` and `task` resolve to those two model classes, `widgets` to
`undefined`, and `toString` to the built-in it inherits. -/
theorem getStorageModel_system_tables_prefixed_witness :
    (getStorageModel Examples.liveApp (JsVal.num 1) "account").model
        = Arg.model Examples.accountHandle ∧
      (getStorageModel Examples.liveApp (JsVal.num 1) "task").model
        = Arg.model Examples.taskHandle ∧
      (getStorageModel Examples.registryApp (JsVal.num 1) "widgets").model
        = Arg.model Examples.widgetsHandle ∧
      (getStorageModel Examples.liveApp (JsVal.num 1) "widgets").model
        = Arg.val JsVal.undefined ∧
      (getStorageModel Examples.liveApp (JsVal.num 1) "toString").model
        = Arg.val (JsVal.native "Object.prototype.toString") :=
  have h := getStorageModel_system_tables_prefixed Examples.liveApp Examples.shop
    Examples.liveDatasource rfl rfl
  have g := getStorageModel_system_tables_prefixed Examples.registryApp Examples.shop
    Examples.registryDatasource rfl rfl
  ⟨h.1.2.1 _ rfl, h.2.1.2.1 _ rfl, (g.2.2 "widgets" (by decide) (by decide)).2.1 _ rfl,
    (h.2.2 "widgets" (by decide) (by decide)).2.2.2 rfl (by decide) (by decide),
    (h.2.2 "toString" (by decide) (by decide)).2.2.1 rfl⟩

/-- C2 (as stated) fails: for a storage id with no stored descriptor the error
passed to the callback is `null`, which is falsy. -/
theorem getStorageModel_unknown_storage_reports_no_error :
    Examples.shopApp.findById (JsVal.num 7) = (JsVal.null, none) ∧
      (getStorageModel Examples.shopApp (JsVal.num 7) "widgets").err.truthy = false :=
  ⟨rfl, rfl⟩

/-- C2 (amended): when `Storage.findById` finds no descriptor for `storageId`,
`getStorageModel` calls back with `(null, null)` for every table name: no error
and no handle, without reading the datasource registry. -/
theorem getStorageModel_unknown_storage (app : App) (storageId : JsVal) (tableName : String)
    (hs : app.findById storageId = (JsVal.null, none)) :
    getStorageModel app storageId tableName =
      ⟨JsVal.null, Arg.val JsVal.null, none, [Access.storageFindById storageId]⟩ := by
  simp [getStorageModel, hs, JsVal.truthy]

/-- Witness for C2 (amended): storage id 7 in the `shop` application. -/
theorem getStorageModel_unknown_storage_witness :
    getStorageModel Examples.shopApp (JsVal.num 7) "widgets" =
      ⟨JsVal.null, Arg.val JsVal.null, none, [Access.storageFindById (JsVal.num 7)]⟩ :=
  getStorageModel_unknown_storage Examples.shopApp (JsVal.num 7) "widgets" rfl

/-- C3: for a stored descriptor with no datasource registered under
`DbEngine + "_" + DbName`, `getStorageModel` calls back, for every table name,
with a truthy error that is the message naming that datasource and with a
`null` handle, and it reads no model map. -/
theorem getStorageModel_datasource_missing (app : App) (s : StorageInstance)
    (tableName : String) (hs : app.findById s.id = (JsVal.null, some s))
    (hd : app.datasources.lookup (s.DbEngine ++ "_" ++ s.DbName) = none) :
    (getStorageModel app s.id tableName).err
        = JsVal.str ("datasource '" ++ (s.DbEngine ++ "_" ++ s.DbName) ++ "' is not found") ∧
      (getStorageModel app s.id tableName).err.truthy = true ∧
      (getStorageModel app s.id tableName).model = Arg.val JsVal.null ∧
      ∀ a ∈ (getStorageModel app s.id tableName).accesses, a.isModels = false := by
  have hne : ("datasource '" ++ (s.DbEngine ++ "_" ++ s.DbName) ++ "' is not found") ≠ "" := by
    intro h
    have h1 := congrArg String.length h
    simp only [String.length_append] at h1
    have h2 : "datasource '".length = 12 := by decide
    have h3 : "".length = 0 := by decide
    omega
  simp [getStorageModel, hs, hd, JsVal.truthy, Access.isModels, hne]

/-- Witness for C3: the `shop` descriptor with no datasource registered. -/
theorem getStorageModel_datasource_missing_witness :
    (getStorageModel Examples.offlineApp (JsVal.num 1) "widgets").err
        = JsVal.str "datasource 'mysql_shop' is not found" ∧
      (getStorageModel Examples.offlineApp (JsVal.num 1) "widgets").model
        = Arg.val JsVal.null :=
  have h := getStorageModel_datasource_missing Examples.offlineApp Examples.shop "widgets"
    rfl rfl
  ⟨h.1, h.2.2.1⟩

/-- C4 (as stated) fails: for a stored, connected tenant without a model
`widgets`, the error passed to the callback is `null`, which is falsy. -/
theorem getStorageModel_unknown_table_reports_no_error :
    Examples.shopApp.findById (JsVal.num 1) = (JsVal.null, some Examples.shop) ∧
      (Examples.shopApp.datasources.lookup "mysql_shop").isSome = true ∧
      (getStorageModel Examples.shopApp (JsVal.num 1) "widgets").err.truthy = false :=
  ⟨rfl, rfl, rfl⟩

/-- C4 (amended): for a stored descriptor whose datasource is registered and a
table name whose physical name has no entry in the datasource's model map,
`getStorageModel` calls back with a `null` error, with the descriptor's
`DbPrefixTable` as third argument and with no model class as handle: the
handle is `undefined`, except for a name inherited from `Object.prototype`,
where it is that built-in. -/
theorem getStorageModel_unknown_table (app : App) (s : StorageInstance) (ds : DataSource)
    (t : String) (hs : app.findById s.id = (JsVal.null, some s))
    (hd : app.datasources.lookup (s.DbEngine ++ "_" ++ s.DbName) = some ds)
    (hm : ds.models.lookup (physicalTableName s t) = none) :
    (getStorageModel app s.id t).err = JsVal.null ∧
      (getStorageModel app s.id t).dbPrefix = some s.DbPrefixTable ∧
      (getStorageModel app s.id t).model.isModel = false ∧
      (getStorageModel app s.id t).model
        = Arg.val (inheritedProperty (physicalTableName s t)) ∧
      (physicalTableName s t ≠ "__proto__" → physicalTableName s t ∉ objectPrototypeKeys →
        (getStorageModel app s.id t).model = Arg.val JsVal.undefined) ∧
      (physicalTableName s t ∈ objectPrototypeKeys →
        (getStorageModel app s.id t).model.truthy = true) := by
  rw [getStorageModel_registered app s ds t hs hd]
  refine ⟨rfl, rfl, ?_, ?_, fun h1 h2 => ?_, fun h3 => ?_⟩
  · simp [modelEntry, hm, Arg.isModel]
  · simp [modelEntry, hm]
  · simp [modelEntry, hm, inheritedProperty, h1, h2]
  · by_cases h1 : physicalTableName s t = "__proto__"
    · have hm' := hm
      rw [h1] at hm'
      simp [modelEntry, hm', inheritedProperty, h1, Arg.truthy, JsVal.truthy]
    · simp [modelEntry, hm, inheritedProperty, h1, h3, Arg.truthy, JsVal.truthy]

/-- Witness for C4 (amended): `widgets` yields `undefined` and `toString` the
inherited built-in in the `shop` application. -/
theorem getStorageModel_unknown_table_witness :
    ((getStorageModel Examples.shopApp (JsVal.num 1) "widgets").err = JsVal.null ∧
      (getStorageModel Examples.shopApp (JsVal.num 1) "widgets").dbPrefix = some "t1" ∧
      (getStorageModel Examples.shopApp (JsVal.num 1) "widgets").model
        = Arg.val JsVal.undefined) ∧
    ((getStorageModel Examples.shopApp (JsVal.num 1) "toString").err = JsVal.null ∧
      (getStorageModel Examples.shopApp (JsVal.num 1) "toString").model
        = Arg.val (JsVal.native "Object.prototype.toString")) :=
  have h := getStorageModel_unknown_table Examples.shopApp Examples.shop
    Examples.shopDatasource "widgets" rfl rfl rfl
  have g := getStorageModel_unknown_table Examples.shopApp Examples.shop
    Examples.shopDatasource "toString" rfl rfl rfl
  ⟨⟨h.1, h.2.1, h.2.2.2.2.1 (by decide) (by decide)⟩, g.1, g.2.2.2.1⟩

end Storage

/-! ## Operation theorems -/

namespace Storage

theorem invocations_cb_ite (c : Prop) [Decidable c] (e e' : JsVal) (d d' : Arg) :
    (if c then Outcome.cb e d else Outcome.cb e' d').invocations = [] := by
  split <;> rfl

/-- A resolution error always comes with a `null` handle. -/
theorem getStorageModel_error_model (app : App) (storageId : JsVal) (tableName : String)
    (he : (getStorageModel app storageId tableName).err.truthy = true) :
    (getStorageModel app storageId tableName).model = Arg.val JsVal.null := by
  unfold getStorageModel at he ⊢
  rcases hf : app.findById storageId with ⟨err, storage⟩
  rw [hf] at he
  by_cases h1 : err.truthy = true
  · simp [h1]
  · cases storage with
    | none => simp [h1]
    | some st =>
      cases hd : app.datasources.lookup (st.DbEngine ++ "_" ++ st.DbName) with
      | none => simp [h1, hd]
      | some ds => simp [h1, hd, JsVal.truthy_null] at he

/-- The operations that test the resolution error pass it to their callback
unchanged, once, and invoke no model method. -/
theorem resolution_error_forwarded (app : App) (storageId accountId : JsVal)
    (tableName : String) (body : JsObject) :
    ((getStorageModel app storageId "account").err.truthy = true →
      getOneAccount app storageId accountId
          = Outcome.cb (getStorageModel app storageId "account").err (Arg.val JsVal.null) ∧
        deleteOneAccount app storageId accountId
          = Outcome.cb (getStorageModel app storageId "account").err (Arg.val JsVal.null) ∧
        getAllAccounts app storageId
          = Outcome.cb (getStorageModel app storageId "account").err (Arg.val JsVal.null)) ∧
    ((getStorageModel app storageId "task").err.truthy = true →
      createOrUpdateTask app storageId accountId body
          = Outcome.cb (getStorageModel app storageId "task").err (Arg.val JsVal.null) ∧
        getAllTasks app storageId accountId
          = Outcome.cb (getStorageModel app storageId "task").err (Arg.val JsVal.null) ∧
        deleteAllTasks app storageId accountId
          = Outcome.cb (getStorageModel app storageId "task").err (Arg.val JsVal.null)) ∧
    ((getStorageModel app storageId tableName).err.truthy = true →
      createOrUpdateData app storageId tableName body
          = Outcome.cb (getStorageModel app storageId tableName).err (Arg.val JsVal.null) ∧
        getAllData app storageId tableName
          = Outcome.cb (getStorageModel app storageId tableName).err (Arg.val JsVal.null) ∧
        deleteAllData app storageId tableName
          = Outcome.cb (getStorageModel app storageId tableName).err (Arg.val JsVal.null)) := by
  refine ⟨fun he => ?_, fun he => ?_, fun he => ?_⟩
  · simp [getOneAccount, deleteOneAccount, getAllAccounts, he]
  · have hm := getStorageModel_error_model app storageId "task" he
    simp [createOrUpdateTask, getAllTasks, deleteAllTasks, he, hm]
  · have hm := getStorageModel_error_model app storageId tableName he
    simp [createOrUpdateData, getAllData, deleteAllData, he, hm]

/-- C5 fails on the code: with the datasource of `shop` not registered,
`getStorageModel` reports an error, yet `createOrUpdateAccount` never calls its
callback and ends in a `TypeError` (it calls `create` on the `null` handle), and
`importAccounts` without a url calls back with `"url not provided"` instead of
the resolution error. -/
theorem resolution_error_dropped_by_account_writes :
    (getStorageModel Examples.offlineApp (JsVal.num 1) "account").err
        = JsVal.str "datasource 'mysql_shop' is not found" ∧
      createOrUpdateAccount Examples.offlineApp (JsVal.num 1) [("name", JsVal.str "x")]
        = ⟨[], [], some typeErrorText⟩ ∧
      createOrUpdateAccount Examples.offlineApp (JsVal.num 1)
          [("id", JsVal.num 3), ("name", JsVal.str "x")]
        = ⟨[], [], some typeErrorText⟩ ∧
      importAccounts ⟨fun _ => some JsVal.null, Except.ok (JsVal.arr [])⟩ Examples.offlineApp
          (JsVal.num 1) []
        = ⟨[], [(JsVal.str "url not provided", Arg.val JsVal.undefined)], none⟩ ∧
      importAccounts ⟨fun _ => some JsVal.null, Except.ok (JsVal.arr [])⟩ Examples.offlineApp
          (JsVal.num 1) [("url", JsVal.str "https://example.org/accounts.csv")]
        = ⟨[], [(typeErrorValue, Arg.val (JsVal.bool false))], none⟩ :=
  ⟨rfl, rfl, rfl, rfl, rfl⟩

/-- The resolution of `task` for a stored descriptor whose datasource is
registered and holds the prefixed task model. -/
theorem getStorageModel_task (app : App) (s : StorageInstance) (ds : DataSource)
    (model : Handle) (hs : app.findById s.id = (JsVal.null, some s))
    (hd : app.datasources.lookup (s.DbEngine ++ "_" ++ s.DbName) = some ds)
    (hm : ds.models.lookup (s.DbPrefixTable ++ "_task") = some model) :
    (getStorageModel app s.id "task").err = JsVal.null ∧
      (getStorageModel app s.id "task").model = Arg.model model ∧
      (getStorageModel app s.id "task").dbPrefix = some s.DbPrefixTable := by
  rw [getStorageModel_registered app s ds "task" hs hd, physicalTableName_task]
  simp [modelEntry, hm]

/-- The merged `taskMessages`, key by key: the body's value when the body's
`taskMessages` has the key, otherwise the stored one. -/
theorem lookup_mergedTaskMessages (oldData : JsVal) (body : JsObject) (k : String) :
    (mergedTaskMessages oldData body).lookup k
      = ((body.get "taskMessages").prop? k).orElse
          (fun _ => (oldData.get "taskMessages").prop? k) := by
  unfold mergedTaskMessages
  rw [JsObject.lookup_spread, JsObject.lookup_spread]
  cases (body.get "taskMessages").prop? k <;> cases (oldData.get "taskMessages").prop? k <;> rfl

/-- C6: when the task handle resolves, the referenced account exists and the
body carries the (truthy) id of a stored task, `createOrUpdateTask` looks up the
account, reads the stored task and then calls `update` once, with the body
whose `taskMessages` is the shallow merge of the stored task's with the body's:
per key, the body's value when the body's `taskMessages` has the key, else the
stored value when the stored `taskMessages` has it, else absent. -/
theorem createOrUpdateTask_merges_taskMessages (app : App) (s : StorageInstance)
    (ds : DataSource) (model account : Handle) (accountId accountData e oldData : JsVal)
    (body : JsObject) (hs : app.findById s.id = (JsVal.null, some s))
    (hd : app.datasources.lookup (s.DbEngine ++ "_" ++ s.DbName) = some ds)
    (hm : ds.models.lookup (s.DbPrefixTable ++ "_task") = some model)
    (ha : app.models.lookup (s.DbPrefixTable ++ "_account") = some account)
    (hacc : account.respond (Call.findById accountId) = (JsVal.null, accountData))
    (hdata : accountData.truthy = true) (hid : (body.get "id").truthy = true)
    (hold : model.respond (Call.findById (body.get "id")) = (e, oldData))
    (hstored : oldData.nullish = false) :
    (createOrUpdateTask app s.id accountId body).written
        = [JsVal.obj (body.set "taskMessages" (JsVal.obj (mergedTaskMessages oldData body)))] ∧
      (body.set "taskMessages" (JsVal.obj (mergedTaskMessages oldData body))).get "taskMessages"
        = JsVal.obj (mergedTaskMessages oldData body) ∧
      ∀ k : String,
        (mergedTaskMessages oldData body).lookup k
          = match (body.get "taskMessages").prop? k with
            | some v => some v
            | none => (oldData.get "taskMessages").prop? k := by
  obtain ⟨h1, h2, h3⟩ := getStorageModel_task app s ds model hs hd hm
  refine ⟨?_, JsObject.get_set_self _ _ _, fun k => ?_⟩
  · simp [createOrUpdateTask, h1, h2, h3, JsVal.truthy_null, Arg.truthy, accountModelName,
      appModel, ha, callMethod, hacc, hdata, hid, hold, hstored, Outcome.written,
      Outcome.afterInvocation, Outcome.afterCallbacks, invocations_cb_ite, Call.written]
  · rw [lookup_mergedTaskMessages]
    cases (body.get "taskMessages").prop? k <;> rfl

/-- Witness for C6: `{a: 1}` applied over stored `{a: 0, b: 2}` writes
`{a: 1, b: 2}`. -/
theorem createOrUpdateTask_merges_taskMessages_witness :
    (createOrUpdateTask Examples.liveApp (JsVal.num 1) (JsVal.num 3) Examples.updateBody).written
        = [JsVal.obj [("id", JsVal.num 5),
            ("taskMessages", JsVal.obj [("a", JsVal.num 1), ("b", JsVal.num 2)])]] ∧
      mergedTaskMessages Examples.storedTask Examples.updateBody
        = [("a", JsVal.num 1), ("b", JsVal.num 2)] :=
  ⟨(createOrUpdateTask_merges_taskMessages Examples.liveApp Examples.shop
      Examples.liveDatasource Examples.taskHandle Examples.accountHandle (JsVal.num 3)
      Examples.account JsVal.null Examples.storedTask Examples.updateBody
      rfl rfl rfl rfl rfl rfl rfl rfl rfl).1, rfl⟩

/-- C8 (as stated) fails: the task handle of `shop` resolves and account 4 does
not exist, yet no call of the callback carries a truthy error. -/
theorem createOrUpdateTask_missing_account_reports_no_error :
    (getStorageModel Examples.liveApp (JsVal.num 1) "task").model
        = Arg.model Examples.taskHandle ∧
      Examples.accountHandle.respond (Call.findById (JsVal.num 4)) = (JsVal.null, JsVal.null) ∧
      (createOrUpdateTask Examples.liveApp (JsVal.num 1) (JsVal.num 4)
        Examples.newTaskBody).reportsError = false :=
  ⟨rfl, rfl, rfl⟩

/-- C8 (amended): when the task handle resolves and the lookup of `accountId`
in the model `DbPrefixTable + "_account"` finds no record, `createOrUpdateTask`
invokes that lookup and nothing else (no `create`, no `update`, no method of the
task handle) and calls its callback once, with `(null, null)`. -/
theorem createOrUpdateTask_missing_account (app : App) (s : StorageInstance)
    (ds : DataSource) (model account : Handle) (accountId : JsVal) (body : JsObject)
    (hs : app.findById s.id = (JsVal.null, some s))
    (hd : app.datasources.lookup (s.DbEngine ++ "_" ++ s.DbName) = some ds)
    (hm : ds.models.lookup (s.DbPrefixTable ++ "_task") = some model)
    (ha : app.models.lookup (s.DbPrefixTable ++ "_account") = some account)
    (hacc : account.respond (Call.findById accountId) = (JsVal.null, JsVal.null)) :
    createOrUpdateTask app s.id accountId body
      = ⟨[⟨account.modelName, Call.findById accountId⟩],
          [(JsVal.null, Arg.val JsVal.null)], none⟩ := by
  obtain ⟨h1, h2, h3⟩ := getStorageModel_task app s ds model hs hd hm
  simp [createOrUpdateTask, h1, h2, h3, JsVal.truthy_null, Arg.truthy, accountModelName,
    appModel, ha, callMethod, hacc, Outcome.afterInvocation, Outcome.cb]

/-- Witness for C8 (amended): account 4 does not exist in `shop`. -/
theorem createOrUpdateTask_missing_account_witness :
    createOrUpdateTask Examples.liveApp (JsVal.num 1) (JsVal.num 4) Examples.newTaskBody
      = ⟨[⟨"t1_account", Call.findById (JsVal.num 4)⟩],
          [(JsVal.null, Arg.val JsVal.null)], none⟩ :=
  createOrUpdateTask_missing_account Examples.liveApp Examples.shop Examples.liveDatasource
    Examples.taskHandle Examples.accountHandle (JsVal.num 4) Examples.newTaskBody
    rfl rfl rfl rfl rfl

/-- C9 fails on the code, on the update path.  The account's profile key is
`acct` and both bodies carry `profileKey: "intruder"`.  On the create path the
record handed to `create` carries `acct`; on the update path `acct` goes into
the filter only, and the record handed to `update` still carries `intruder`,
with no error reported. -/
theorem createOrUpdateTask_update_keeps_body_profileKey :
    Examples.account.get "profileKey" = JsVal.str "acct" ∧
      (createOrUpdateTask Examples.liveApp (JsVal.num 1) (JsVal.num 3)
          Examples.newTaskBody).written
        = [JsVal.obj [("title", JsVal.str "call back"), ("profileKey", JsVal.str "acct")]] ∧
      (createOrUpdateTask Examples.liveApp (JsVal.num 1) (JsVal.num 3)
          Examples.foreignBody).invocations
        = [⟨"t1_account", Call.findById (JsVal.num 3)⟩,
            ⟨"t1_task", Call.findById (JsVal.num 5)⟩,
            ⟨"t1_task", Call.update
              (JsVal.obj [("id", JsVal.num 5), ("profileKey", JsVal.str "acct")])
              (JsVal.obj [("id", JsVal.num 5), ("profileKey", JsVal.str "intruder"),
                ("taskMessages", JsVal.obj [("a", JsVal.num 0), ("b", JsVal.num 2)])])⟩] ∧
      (createOrUpdateTask Examples.liveApp (JsVal.num 1) (JsVal.num 3)
          Examples.foreignBody).reportsError = false ∧
      JsVal.str "intruder" ≠ JsVal.str "acct" :=
  ⟨rfl, rfl, rfl, rfl, fun h => absurd (JsVal.str.inj h) (by decide)⟩

end Storage

/-! ## Provisioning theorems -/

theorem SaveResult.andThen_keeps (P : System → Prop) (r : SaveResult)
    (rest : System → SaveResult) (hr : P r.system) (hrest : ∀ s, P s → P (rest s).system) :
    P (r.andThen rest).system := by
  unfold SaveResult.andThen
  cases r.raised with
  | some e => exact hr
  | none => exact hrest _ hr

theorem SaveResult.andThen_ok (r : SaveResult) (rest : System → SaveResult)
    (h : (r.andThen rest).raised = none) :
    r.raised = none ∧ r.andThen rest = rest r.system := by
  unfold SaveResult.andThen at h ⊢
  cases hr : r.raised with
  | some e => rw [hr] at h; simp only at h; rw [hr] at h; cases h
  | none => exact ⟨rfl, rfl⟩

theorem SaveResult.andThen_of_ok (s : System) (rest : System → SaveResult) :
    SaveResult.andThen ⟨s, none⟩ rest = rest s := rfl

namespace Storage

theorem installModel_datasource (env : ProvisionEnv) (sys : System) (n name : String)
    (props : JsVal) (ds : DataSource) (hd : sys.app.datasources.lookup n = some ds) :
    (installModel env sys n name props).app.datasources.lookup n
      = some ⟨ds.settings, assign ds.models name ⟨name, props, env.respond n name⟩⟩ := by
  simp [installModel, associateModelToDatasource, saveModelToFile, attachModel, hd,
    lookup_assign_self]

theorem installModel_datasource_of_ne (env : ProvisionEnv) (sys : System) (n name : String)
    (props : JsVal) (k : String) (hk : k ≠ n) :
    (installModel env sys n name props).app.datasources.lookup k
      = sys.app.datasources.lookup k := by
  cases hd : sys.app.datasources.lookup n with
  | none => simp [installModel, associateModelToDatasource, saveModelToFile, attachModel, hd]
  | some ds =>
    simp [installModel, associateModelToDatasource, saveModelToFile, attachModel, hd,
      lookup_assign_of_ne _ _ _ _ hk]

theorem installModel_modelConfigFile (env : ProvisionEnv) (sys : System) (n name : String)
    (props : JsVal) :
    (installModel env sys n name props).modelConfigFile
      = sys.modelConfigFile.set name (configEntry n) := by
  simp [installModel, associateModelToDatasource, saveModelToFile, configEntry]

theorem installModel_datasourcesFile (env : ProvisionEnv) (sys : System) (n name : String)
    (props : JsVal) :
    (installModel env sys n name props).datasourcesFile = sys.datasourcesFile := by
  simp [installModel, associateModelToDatasource, saveModelToFile]

theorem installModel_connected (env : ProvisionEnv) (sys : System) (n name : String)
    (props : JsVal) (st : JsObject) (h : Connected sys n st) :
    Connected (installModel env sys n name props) n st := by
  obtain ⟨ds, hd, hst⟩ := h
  exact ⟨_, installModel_datasource env sys n name props ds hd, hst⟩

theorem installModel_configures (env : ProvisionEnv) (sys : System) (n name : String)
    (props : JsVal) :
    (installModel env sys n name props).modelConfigFile.lookup name
      = some (configEntry n) := by
  rw [installModel_modelConfigFile]
  exact JsObject.lookup_set_self _ _ _

theorem installModel_keeps_configured (env : ProvisionEnv) (sys : System)
    (n name : String) (props : JsVal) (k : String)
    (h : sys.modelConfigFile.lookup k = some (configEntry n)) :
    (installModel env sys n name props).modelConfigFile.lookup k
      = some (configEntry n) := by
  rw [installModel_modelConfigFile]
  by_cases hk : k = name
  · subst hk
    exact JsObject.lookup_set_self _ _ _
  · rw [JsObject.lookup_set_of_ne _ _ _ _ hk]
    exact h

/-- A property that every step keeps holds after a fold over the tables. -/
theorem foldl_keeps (step : System → TableDef → System) (P : System → Prop)
    (hstep : ∀ sys t, P sys → P (step sys t)) (tables : List TableDef) (sys : System)
    (h : P sys) : P (tables.foldl step sys) := by
  induction tables generalizing sys with
  | nil => exact h
  | cons t rest ih => exact ih _ (hstep sys t h)

/-- A per-table property that the step of that table establishes and that
every step keeps holds for every table after the fold. -/
theorem foldl_establishes (step : System → TableDef → System)
    (Q : TableDef → System → Prop) (hest : ∀ sys t, Q t (step sys t))
    (hkeep : ∀ sys t t', Q t sys → Q t (step sys t')) (tables : List TableDef)
    (sys : System) : ∀ t ∈ tables, Q t (tables.foldl step sys) := by
  induction tables generalizing sys with
  | nil => intro t ht; cases ht
  | cons t0 rest ih =>
    intro t ht
    rcases List.mem_cons.1 ht with h0 | hrest
    · subst h0
      exact foldl_keeps step (Q t) (fun sys t' => hkeep sys t t') rest _ (hest sys t)
    · exact ih _ t hrest

theorem installTables_configured (env : ProvisionEnv) (n : String) (tables : List TableDef)
    (sys : System) :
    ∀ t ∈ tables, (installTables env n tables sys).modelConfigFile.lookup t.name
      = some (configEntry n) :=
  foldl_establishes _ (fun t sys => sys.modelConfigFile.lookup t.name = some (configEntry n))
    (fun sys t => installModel_configures env sys n t.name t.structureDef)
    (fun sys _ t' h => installModel_keeps_configured env sys n t'.name t'.structureDef _ h)
    tables sys

theorem provisionModel_keeps (env : ProvisionEnv) (n : String) (P : System → Prop)
    (hinst : ∀ s name props, P s → P (installModel env s n name props)) (sys : System)
    (name : String) (props : JsVal) (h : P sys) :
    P (provisionModel env sys n name props).system := by
  unfold provisionModel
  cases env.defineModel n name props with
  | some e => exact h
  | none => exact hinst _ _ _ h

theorem provisionModel_ok (env : ProvisionEnv) (n : String) (sys : System) (name : String)
    (props : JsVal) (h : (provisionModel env sys n name props).raised = none) :
    (provisionModel env sys n name props).system = installModel env sys n name props := by
  unfold provisionModel at h ⊢
  cases hd : env.defineModel n name props with
  | some e => rw [hd] at h; cases h
  | none => rfl

theorem provisionTables_keeps (env : ProvisionEnv) (n : String) (P : System → Prop)
    (hinst : ∀ s name props, P s → P (installModel env s n name props))
    (tables : List (Option TableDef)) (sys : System) (h : P sys) :
    P (provisionTables env n tables sys).system := by
  induction tables generalizing sys with
  | nil => exact h
  | cons t rest ih =>
    cases t with
    | none => exact h
    | some table =>
      exact SaveResult.andThen_keeps P _ _ (provisionModel_keeps env n P hinst sys _ _ h)
        (fun s hs => ih s hs)

theorem provisionTables_ok (env : ProvisionEnv) (n : String)
    (tables : List (Option TableDef)) (sys : System)
    (h : (provisionTables env n tables sys).raised = none) :
    (provisionTables env n tables sys).system
      = installTables env n (tables.filterMap id) sys := by
  induction tables generalizing sys with
  | nil => rfl
  | cons t rest ih =>
    cases t with
    | none => cases h
    | some table =>
      have h' : ((provisionModel env sys n table.name table.structureDef).andThen
          (fun sys => provisionTables env n rest sys)).raised = none := h
      obtain ⟨h1, h2⟩ := SaveResult.andThen_ok _ _ h'
      have e : provisionTables env n (some table :: rest) sys
          = provisionTables env n rest
              (provisionModel env sys n table.name table.structureDef).system := h2
      rw [e] at h ⊢
      rw [ih _ h, provisionModel_ok env n sys _ _ h1]
      rfl

theorem createSystemModel_keeps (env : ProvisionEnv) (n : String) (P : System → Prop)
    (hinst : ∀ s name props, P s → P (installModel env s n name props)) (sys : System)
    (engineType pfx modelName : String) (h : P sys) :
    P (createSystemModel env sys engineType pfx modelName n).system := by
  unfold createSystemModel
  cases env.systemStructure engineType modelName with
  | error e => exact h
  | ok a => exact provisionModel_keeps env n P hinst sys _ _ h

theorem createSystemModel_ok (env : ProvisionEnv) (n : String) (sys : System)
    (engineType pfx modelName : String)
    (h : (createSystemModel env sys engineType pfx modelName n).raised = none) :
    ∃ a, (createSystemModel env sys engineType pfx modelName n).system
      = installModel env sys n (pfx ++ "_" ++ modelName) a := by
  unfold createSystemModel at h ⊢
  cases hs : env.systemStructure engineType modelName with
  | error e => rw [hs] at h; cases h
  | ok a =>
    rw [hs] at h
    exact ⟨a, provisionModel_ok env n sys _ _ h⟩

theorem beforeSave_of_throw (env : ProvisionEnv) (sys : System) (inst : StorageInstance)
    (e : JsVal)
    (hd : env.dataSource (inst.DbEngine ++ "_" ++ inst.DbName) (datasourceStructure inst)
      = some e) : beforeSave env sys inst = ⟨sys, some e⟩ := by
  simp only [beforeSave, hd]

theorem beforeSave_of_no_array (env : ProvisionEnv) (sys : System) (inst : StorageInstance)
    (hd : env.dataSource (inst.DbEngine ++ "_" ++ inst.DbName) (datasourceStructure inst)
      = none) (hst : inst.DbStructure = none) :
    beforeSave env sys inst = ⟨withDataSource sys inst, none⟩ := by
  simp only [beforeSave, hd, hst, withDataSource]

theorem beforeSave_of_array (env : ProvisionEnv) (sys : System) (inst : StorageInstance)
    (tables : List (Option TableDef))
    (hd : env.dataSource (inst.DbEngine ++ "_" ++ inst.DbName) (datasourceStructure inst)
      = none) (hst : inst.DbStructure = some tables) :
    beforeSave env sys inst
      = (provisionTables env (inst.DbEngine ++ "_" ++ inst.DbName) tables
          (withDataSource sys inst)).andThen (fun s1 =>
        (createSystemModel env s1 inst.DbEngine inst.DbPrefixTable "account"
          (inst.DbEngine ++ "_" ++ inst.DbName)).andThen (fun s2 =>
        (createSystemModel env s2 inst.DbEngine inst.DbPrefixTable "task"
          (inst.DbEngine ++ "_" ++ inst.DbName)).andThen (fun s3 =>
        match env.saveDatasource (inst.DbEngine ++ "_" ++ inst.DbName) with
        | some e => ⟨s3, some e⟩
        | none =>
          ⟨saveDatasourceToFile s3 (inst.DbEngine ++ "_" ++ inst.DbName)
            (datasourceStructure inst), none⟩))) := by
  simp only [beforeSave, hd, hst, withDataSource]

/-- A property of the system that holds where the hook can start changing it,
and that installing a model and saving the datasource settings keep, holds when
the hook ends, however it ends. -/
theorem beforeSave_keeps (env : ProvisionEnv) (sys : System) (inst : StorageInstance)
    (P : System → Prop)
    (hthrow : env.dataSource (inst.DbEngine ++ "_" ++ inst.DbName) (datasourceStructure inst)
      ≠ none → P sys)
    (hreg : env.dataSource (inst.DbEngine ++ "_" ++ inst.DbName) (datasourceStructure inst)
      = none → P (withDataSource sys inst))
    (hinst : ∀ s name props, P s →
      P (installModel env s (inst.DbEngine ++ "_" ++ inst.DbName) name props))
    (hsave : ∀ s, P s → P (saveDatasourceToFile s (inst.DbEngine ++ "_" ++ inst.DbName)
      (datasourceStructure inst))) :
    P (beforeSave env sys inst).system := by
  cases hd : env.dataSource (inst.DbEngine ++ "_" ++ inst.DbName) (datasourceStructure inst) with
  | some e =>
    rw [beforeSave_of_throw env sys inst e hd]
    exact hthrow (by simp [hd])
  | none =>
    have h0 := hreg hd
    cases hst : inst.DbStructure with
    | none =>
      rw [beforeSave_of_no_array env sys inst hd hst]
      exact h0
    | some tables =>
      rw [beforeSave_of_array env sys inst tables hd hst]
      refine SaveResult.andThen_keeps P _ _ (provisionTables_keeps env _ P hinst tables _ h0)
        (fun s1 h1 => ?_)
      refine SaveResult.andThen_keeps P _ _ (createSystemModel_keeps env _ P hinst s1 _ _ _ h1)
        (fun s2 h2 => ?_)
      refine SaveResult.andThen_keeps P _ _ (createSystemModel_keeps env _ P hinst s2 _ _ _ h2)
        (fun s3 h3 => ?_)
      cases env.saveDatasource (inst.DbEngine ++ "_" ++ inst.DbName) with
      | some e => exact h3
      | none => exact hsave _ h3

/-- The system a hook that ended without error leaves, for an array
`DbStructure`: every table installed in order, then the two system models, then
the datasource settings saved. -/
theorem beforeSave_ok (env : ProvisionEnv) (sys : System) (inst : StorageInstance)
    (tables : List (Option TableDef)) (hst : inst.DbStructure = some tables)
    (hok : (beforeSave env sys inst).raised = none) :
    ∃ a b, (beforeSave env sys inst).system
      = saveDatasourceToFile
          (installModel env
            (installModel env
              (installTables env (inst.DbEngine ++ "_" ++ inst.DbName) (tables.filterMap id)
                (withDataSource sys inst))
              (inst.DbEngine ++ "_" ++ inst.DbName) (inst.DbPrefixTable ++ "_" ++ "account") a)
            (inst.DbEngine ++ "_" ++ inst.DbName) (inst.DbPrefixTable ++ "_" ++ "task") b)
          (inst.DbEngine ++ "_" ++ inst.DbName) (datasourceStructure inst) := by
  cases hd : env.dataSource (inst.DbEngine ++ "_" ++ inst.DbName) (datasourceStructure inst) with
  | some e =>
    rw [beforeSave_of_throw env sys inst e hd] at hok
    cases hok
  | none =>
    rw [beforeSave_of_array env sys inst tables hd hst] at hok ⊢
    obtain ⟨h1, e1⟩ := SaveResult.andThen_ok _ _ hok
    rw [e1] at hok ⊢
    obtain ⟨h2, e2⟩ := SaveResult.andThen_ok _ _ hok
    rw [e2] at hok ⊢
    obtain ⟨h3, e3⟩ := SaveResult.andThen_ok _ _ hok
    rw [e3] at hok ⊢
    obtain ⟨a, ha⟩ := createSystemModel_ok env _ _ _ _ _ h2
    obtain ⟨b, hb⟩ := createSystemModel_ok env _ _ _ _ _ h3
    refine ⟨a, b, ?_⟩
    cases hs : env.saveDatasource (inst.DbEngine ++ "_" ++ inst.DbName) with
    | some e => rw [hs] at hok; cases hok
    | none =>
      simp only []
      rw [hb, ha, provisionTables_ok env _ tables _ h1]

/-- When no statement of the loop throws, every table is installed. -/
theorem provisionTables_of_no_throw (env : ProvisionEnv) (n : String)
    (tables : List (Option TableDef)) (sys : System)
    (hsome : ∀ x ∈ tables, x ≠ none)
    (hdef : ∀ t, some t ∈ tables → env.defineModel n t.name t.structureDef = none) :
    provisionTables env n tables sys
      = ⟨installTables env n (tables.filterMap id) sys, none⟩ := by
  induction tables generalizing sys with
  | nil => rfl
  | cons x rest ih =>
    cases x with
    | none => exact absurd rfl (hsome none (List.mem_cons_self _ _))
    | some table =>
      have h1 : provisionModel env sys n table.name table.structureDef
          = ⟨installModel env sys n table.name table.structureDef, none⟩ := by
        simp [provisionModel, hdef table (List.mem_cons_self _ _)]
      have e : provisionTables env n (some table :: rest) sys
          = (provisionModel env sys n table.name table.structureDef).andThen
              (fun sys => provisionTables env n rest sys) := rfl
      rw [e, h1, SaveResult.andThen_of_ok]
      rw [ih _ (fun x hx => hsome x (List.mem_cons_of_mem _ hx))
        (fun t ht => hdef t (List.mem_cons_of_mem _ ht))]
      rfl

/-- C7 fails on the code: `catalog` has the user tables `orders`, `widgets`,
`invoices` and `autoupdate` fails for `widgets` only.  The hook passes no error
to `next`, and afterwards `getStorageModel` resolves `widgets` to a model class
with no error, and `model-config.json` records `widgets` like the tables whose
materialization succeeded. -/
theorem beforeSave_failed_table_still_resolvable :
    (Examples.widgetsFail.autoupdate "mysql_catalog" "widgets").1.truthy = true ∧
      (beforeSave Examples.widgetsFail (Examples.emptySystem Examples.findCatalog)
        Examples.catalog).raised.isNone = true ∧
      (getStorageModel
        (beforeSave Examples.widgetsFail (Examples.emptySystem Examples.findCatalog)
          Examples.catalog).system.app (JsVal.num 2) "widgets").err.truthy = false ∧
      (getStorageModel
        (beforeSave Examples.widgetsFail (Examples.emptySystem Examples.findCatalog)
          Examples.catalog).system.app (JsVal.num 2) "widgets").model.isModel = true ∧
      (getStorageModel
        (beforeSave Examples.widgetsFail (Examples.emptySystem Examples.findCatalog)
          Examples.catalog).system.app (JsVal.num 2) "orders").model.isModel = true ∧
      (getStorageModel
        (beforeSave Examples.widgetsFail (Examples.emptySystem Examples.findCatalog)
          Examples.catalog).system.app (JsVal.num 2) "invoices").model.isModel = true ∧
      (beforeSave Examples.widgetsFail (Examples.emptySystem Examples.findCatalog)
        Examples.catalog).system.modelConfigFile.lookup "widgets"
        = some (JsVal.obj [("dataSource", JsVal.str "mysql_catalog"),
            ("public", JsVal.bool true)]) :=
  ⟨rfl, rfl, rfl, rfl, rfl, rfl, rfl⟩

/-- C10 (as stated) fails: provisioning `shop` (engine `mysql`, database
`shop`) registers and persists the datasource under `mysql_shop`, not under
`mysql:shop`, and `getStorageModel` names `mysql_shop` too. -/
theorem datasource_name_has_no_colon :
    Examples.shop.DbEngine ++ ":" ++ Examples.shop.DbName = "mysql:shop" ∧
      (beforeSave Examples.widgetsFail (Examples.emptySystem Examples.findShop)
        Examples.shop).system.app.datasources.map Prod.fst = ["mysql_shop"] ∧
      (beforeSave Examples.widgetsFail (Examples.emptySystem Examples.findShop)
        Examples.shop).system.datasourcesFile.map Prod.fst = ["mysql_shop"] ∧
      (beforeSave Examples.widgetsFail (Examples.emptySystem Examples.findShop)
        Examples.shop).system.modelConfigFile.lookup "t1_account"
        = some (JsVal.obj [("dataSource", JsVal.str "mysql_shop"), ("public", JsVal.bool true)]) ∧
      (getStorageModel Examples.offlineApp (JsVal.num 1) "widgets").err
        = JsVal.str "datasource 'mysql_shop' is not found" ∧
      "mysql_shop" ≠ "mysql:shop" :=
  ⟨rfl, rfl, rfl, rfl, rfl, by decide⟩

theorem withDataSource_connected (sys : System) (inst : StorageInstance) :
    Connected (withDataSource sys inst) (inst.DbEngine ++ "_" ++ inst.DbName)
      (datasourceStructure inst) :=
  ⟨_, lookup_assign_self _ _ _, rfl⟩

/-- The tenant's datasource is registered when the hook ends, however it ends,
once `app.dataSource` has returned. -/
theorem beforeSave_connected (env : ProvisionEnv) (sys : System) (inst : StorageInstance)
    (hd : env.dataSource (inst.DbEngine ++ "_" ++ inst.DbName) (datasourceStructure inst)
      = none) :
    Connected (beforeSave env sys inst).system (inst.DbEngine ++ "_" ++ inst.DbName)
      (datasourceStructure inst) :=
  beforeSave_keeps env sys inst (fun s => Connected s _ _) (fun h => absurd hd h)
    (fun _ => withDataSource_connected sys inst)
    (fun s name props h => installModel_connected env s _ name props _ h)
    (fun _ h => h)

/-- The hook touches no datasource registered under another name. -/
theorem beforeSave_datasources_frame (env : ProvisionEnv) (sys : System)
    (inst : StorageInstance) (k : String) (hk : k ≠ inst.DbEngine ++ "_" ++ inst.DbName) :
    (beforeSave env sys inst).system.app.datasources.lookup k
      = sys.app.datasources.lookup k :=
  beforeSave_keeps env sys inst
    (fun s => s.app.datasources.lookup k = sys.app.datasources.lookup k) (fun _ => rfl)
    (fun _ => lookup_assign_of_ne _ _ _ _ hk)
    (fun s name props h => (installModel_datasource_of_ne env s _ name props k hk).trans h)
    (fun _ h => h)

/-- The hook touches no key of `datasources.json` but the tenant's. -/
theorem beforeSave_datasourcesFile_frame (env : ProvisionEnv) (sys : System)
    (inst : StorageInstance) (k : String) (hk : k ≠ inst.DbEngine ++ "_" ++ inst.DbName) :
    (beforeSave env sys inst).system.datasourcesFile.lookup k
      = sys.datasourcesFile.lookup k :=
  beforeSave_keeps env sys inst
    (fun s => s.datasourcesFile.lookup k = sys.datasourcesFile.lookup k) (fun _ => rfl)
    (fun _ => rfl)
    (fun s name props h => by
      show (installModel env s _ name props).datasourcesFile.lookup k = _
      rw [installModel_datasourcesFile]
      exact h)
    (fun s h => (JsObject.lookup_set_of_ne _ _ _ _ hk).trans h)

/-- Every entry of `model-config.json` the hook writes names the tenant's
datasource. -/
theorem beforeSave_modelConfigFile_frame (env : ProvisionEnv) (sys : System)
    (inst : StorageInstance) (k : String) :
    (beforeSave env sys inst).system.modelConfigFile.lookup k
        = sys.modelConfigFile.lookup k ∨
      (beforeSave env sys inst).system.modelConfigFile.lookup k
        = some (configEntry (inst.DbEngine ++ "_" ++ inst.DbName)) :=
  beforeSave_keeps env sys inst
    (fun s => s.modelConfigFile.lookup k = sys.modelConfigFile.lookup k ∨
      s.modelConfigFile.lookup k = some (configEntry (inst.DbEngine ++ "_" ++ inst.DbName)))
    (fun _ => Or.inl rfl) (fun _ => Or.inl rfl)
    (fun s name props h => by
      show (installModel env s _ name props).modelConfigFile.lookup k = _ ∨
        (installModel env s _ name props).modelConfigFile.lookup k = _
      rw [installModel_modelConfigFile]
      by_cases hk : k = name
      · subst hk
        exact Or.inr (JsObject.lookup_set_self _ _ _)
      · rw [JsObject.lookup_set_of_ne _ _ _ _ hk]
        exact h)
    (fun _ h => h)

/-- When no statement of the loop throws, every user table has its
model-config entry when the hook ends, however the hook ends afterwards. -/
theorem beforeSave_configured (env : ProvisionEnv) (sys : System) (inst : StorageInstance)
    (tables : List (Option TableDef)) (hst : inst.DbStructure = some tables)
    (hd : env.dataSource (inst.DbEngine ++ "_" ++ inst.DbName) (datasourceStructure inst)
      = none)
    (hsome : ∀ x ∈ tables, x ≠ none)
    (hdef : ∀ t, some t ∈ tables →
      env.defineModel (inst.DbEngine ++ "_" ++ inst.DbName) t.name t.structureDef = none) :
    ∀ t, some t ∈ tables → (beforeSave env sys inst).system.modelConfigFile.lookup t.name
      = some (configEntry (inst.DbEngine ++ "_" ++ inst.DbName)) := by
  intro t ht
  have hmem : t ∈ tables.filterMap id := by
    simp only [List.mem_filterMap, id]
    exact ⟨some t, ht, rfl⟩
  have h0 := installTables_configured env (inst.DbEngine ++ "_" ++ inst.DbName)
    (tables.filterMap id) (withDataSource sys inst) t hmem
  rw [beforeSave_of_array env sys inst tables hd hst,
    provisionTables_of_no_throw env _ tables _ hsome hdef, SaveResult.andThen_of_ok]
  refine SaveResult.andThen_keeps
    (fun s => s.modelConfigFile.lookup t.name = some (configEntry _)) _ _
    (createSystemModel_keeps env _ _
      (fun s name props h => installModel_keeps_configured env s _ name props _ h) _ _ _ _ h0)
    (fun s2 h2 => ?_)
  refine SaveResult.andThen_keeps
    (fun s => s.modelConfigFile.lookup t.name = some (configEntry _)) _ _
    (createSystemModel_keeps env _ _
      (fun s name props h => installModel_keeps_configured env s _ name props _ h) _ _ _ _ h2)
    (fun s3 h3 => ?_)
  cases env.saveDatasource (inst.DbEngine ++ "_" ++ inst.DbName) with
  | some e => exact h3
  | none => exact h3

/-- What a hook that ended without error has persisted: the entry of every
user table, the datasource settings, and the entries of the two system
models. -/
theorem beforeSave_persisted (env : ProvisionEnv) (sys : System) (inst : StorageInstance)
    (tables : List (Option TableDef)) (hst : inst.DbStructure = some tables)
    (hok : (beforeSave env sys inst).raised = none) :
    (∀ t, some t ∈ tables → (beforeSave env sys inst).system.modelConfigFile.lookup t.name
      = some (configEntry (inst.DbEngine ++ "_" ++ inst.DbName))) ∧
      (beforeSave env sys inst).system.datasourcesFile.lookup
        (inst.DbEngine ++ "_" ++ inst.DbName) = some (JsVal.obj (datasourceStructure inst)) ∧
      (beforeSave env sys inst).system.modelConfigFile.lookup
        (inst.DbPrefixTable ++ "_" ++ "account")
        = some (configEntry (inst.DbEngine ++ "_" ++ inst.DbName)) ∧
      (beforeSave env sys inst).system.modelConfigFile.lookup
        (inst.DbPrefixTable ++ "_" ++ "task")
        = some (configEntry (inst.DbEngine ++ "_" ++ inst.DbName)) := by
  obtain ⟨a, b, h⟩ := beforeSave_ok env sys inst tables hst hok
  rw [h]
  refine ⟨fun t ht => ?_, JsObject.lookup_set_self _ _ _, ?_, ?_⟩
  · have hmem : t ∈ tables.filterMap id := by
      simp only [List.mem_filterMap, id]
      exact ⟨some t, ht, rfl⟩
    exact installModel_keeps_configured _ _ _ _ _ _
      (installModel_keeps_configured _ _ _ _ _ _
        (installTables_configured env _ _ _ t hmem))
  · exact installModel_keeps_configured _ _ _ _ _ _ (installModel_configures _ _ _ _ _)
  · exact installModel_configures _ _ _ _ _

/-- The registry reads of a resolution of a stored descriptor address the
datasource `DbEngine + "_" + DbName` and no other. -/
theorem getStorageModel_datasource_reads (app : App) (inst : StorageInstance) (t : String)
    (hs : app.findById inst.id = (JsVal.null, some inst)) :
    (getStorageModel app inst.id t).accesses.filterMap Access.datasource?
        = [inst.DbEngine ++ "_" ++ inst.DbName] ∨
      (getStorageModel app inst.id t).accesses.filterMap Access.datasource?
        = [inst.DbEngine ++ "_" ++ inst.DbName, inst.DbEngine ++ "_" ++ inst.DbName] := by
  cases hd : app.datasources.lookup (inst.DbEngine ++ "_" ++ inst.DbName) with
  | none =>
    left
    simp [getStorageModel, hs, hd, JsVal.truthy_null, Access.datasource?]
  | some ds =>
    right
    rw [getStorageModel_registered app inst ds t hs hd]
    simp [Access.datasource?]

/-- C10 (amended): the tenant key is `DbEngine + "_" + DbName`.  Once
`app.dataSource` has returned, provisioning has registered the datasource under
that name, with that name in its settings, and it touches no datasource and no
key of `datasources.json` under another name.  Every model-config entry it
writes records that name as `dataSource`: when `DbStructure` is an array and no
statement of the loop throws, every user table has such an entry, and a hook
that ends without error has also persisted the datasource settings under that
name and recorded it for the two system models.  Every datasource read of
`getStorageModel` for the stored descriptor is a read of that same name. -/
theorem datasource_name_is_engine_underscore_name (env : ProvisionEnv) (sys : System)
    (inst : StorageInstance) :
    (env.dataSource (inst.DbEngine ++ "_" ++ inst.DbName) (datasourceStructure inst) = none →
      ∃ ds, (beforeSave env sys inst).system.app.datasources.lookup
          (inst.DbEngine ++ "_" ++ inst.DbName) = some ds ∧
        ds.settings.get "name" = JsVal.str (inst.DbEngine ++ "_" ++ inst.DbName)) ∧
    (∀ k, k ≠ inst.DbEngine ++ "_" ++ inst.DbName →
      (beforeSave env sys inst).system.app.datasources.lookup k
          = sys.app.datasources.lookup k ∧
        (beforeSave env sys inst).system.datasourcesFile.lookup k
          = sys.datasourcesFile.lookup k) ∧
    (∀ k, (beforeSave env sys inst).system.modelConfigFile.lookup k
        = sys.modelConfigFile.lookup k ∨
      (beforeSave env sys inst).system.modelConfigFile.lookup k
        = some (JsVal.obj [("dataSource", JsVal.str (inst.DbEngine ++ "_" ++ inst.DbName)),
            ("public", JsVal.bool true)])) ∧
    (∀ tables, inst.DbStructure = some tables →
      (env.dataSource (inst.DbEngine ++ "_" ++ inst.DbName) (datasourceStructure inst) = none →
        (∀ x ∈ tables, x ≠ none) →
        (∀ t, some t ∈ tables →
          env.defineModel (inst.DbEngine ++ "_" ++ inst.DbName) t.name t.structureDef = none) →
        ∀ t, some t ∈ tables →
          (beforeSave env sys inst).system.modelConfigFile.lookup t.name
            = some (JsVal.obj [("dataSource", JsVal.str (inst.DbEngine ++ "_" ++ inst.DbName)),
                ("public", JsVal.bool true)])) ∧
      ((beforeSave env sys inst).raised = none →
        (∀ t, some t ∈ tables →
          (beforeSave env sys inst).system.modelConfigFile.lookup t.name
            = some (JsVal.obj [("dataSource", JsVal.str (inst.DbEngine ++ "_" ++ inst.DbName)),
                ("public", JsVal.bool true)])) ∧
        (∃ settings : JsObject,
          (beforeSave env sys inst).system.datasourcesFile.lookup
              (inst.DbEngine ++ "_" ++ inst.DbName) = some (JsVal.obj settings) ∧
            settings.get "name" = JsVal.str (inst.DbEngine ++ "_" ++ inst.DbName)) ∧
        (beforeSave env sys inst).system.modelConfigFile.lookup
            (inst.DbPrefixTable ++ "_account")
          = some (JsVal.obj [("dataSource", JsVal.str (inst.DbEngine ++ "_" ++ inst.DbName)),
              ("public", JsVal.bool true)]) ∧
        (beforeSave env sys inst).system.modelConfigFile.lookup
            (inst.DbPrefixTable ++ "_task")
          = some (JsVal.obj [("dataSource", JsVal.str (inst.DbEngine ++ "_" ++ inst.DbName)),
              ("public", JsVal.bool true)]))) ∧
    (∀ (app : App) (t : String), app.findById inst.id = (JsVal.null, some inst) →
      ∀ m ∈ (getStorageModel app inst.id t).accesses.filterMap Access.datasource?,
        m = inst.DbEngine ++ "_" ++ inst.DbName) ∧
    (∀ (app : App) (t : String), app.findById inst.id = (JsVal.null, some inst) →
      (getStorageModel app inst.id t).accesses.filterMap Access.datasource? ≠ []) := by
  have hname : (datasourceStructure inst).get "name"
      = JsVal.str (inst.DbEngine ++ "_" ++ inst.DbName) := by
    simp [datasourceStructure, JsObject.get, List.lookup]
  refine ⟨fun hd => ?_, fun k hk => ⟨beforeSave_datasources_frame env sys inst k hk,
      beforeSave_datasourcesFile_frame env sys inst k hk⟩,
    beforeSave_modelConfigFile_frame env sys inst,
    fun tables hst => ⟨beforeSave_configured env sys inst tables hst, fun hok => ?_⟩,
    fun app t hs m hm => ?_, fun app t hs => ?_⟩
  · obtain ⟨ds, hl, hset⟩ := beforeSave_connected env sys inst hd
    exact ⟨ds, hl, by rw [hset]; exact hname⟩
  · obtain ⟨h0, h1, h2, h3⟩ := beforeSave_persisted env sys inst tables hst hok
    refine ⟨h0, ⟨_, h1, hname⟩, ?_, ?_⟩
    · have e : inst.DbPrefixTable ++ "_account" = inst.DbPrefixTable ++ "_" ++ "account" := by
        simp [String.append_assoc]
      rw [e]; exact h2
    · have e : inst.DbPrefixTable ++ "_task" = inst.DbPrefixTable ++ "_" ++ "task" := by
        simp [String.append_assoc]
      rw [e]; exact h3
  · rcases getStorageModel_datasource_reads app inst t hs with h | h <;>
      rw [h] at hm <;> simp at hm <;> exact hm
  · rcases getStorageModel_datasource_reads app inst t hs with h | h <;> rw [h] <;> simp

/-- Witness for C10 (amended) on the `shop` descriptor. -/
theorem datasource_name_is_engine_underscore_name_witness :
    (∃ ds, (beforeSave Examples.widgetsFail (Examples.emptySystem Examples.findShop)
          Examples.shop).system.app.datasources.lookup "mysql_shop" = some ds ∧
        ds.settings.get "name" = JsVal.str "mysql_shop") ∧
      (beforeSave Examples.widgetsFail (Examples.emptySystem Examples.findShop)
          Examples.shop).system.modelConfigFile.lookup "t1_account"
        = some (JsVal.obj [("dataSource", JsVal.str "mysql_shop"),
            ("public", JsVal.bool true)]) ∧
      ∀ m ∈ (getStorageModel Examples.shopApp (JsVal.num 1) "account").accesses.filterMap
          Access.datasource?, m = "mysql_shop" :=
  have h := datasource_name_is_engine_underscore_name Examples.widgetsFail
    (Examples.emptySystem Examples.findShop) Examples.shop
  ⟨h.1 rfl, ((h.2.2.2.1 [] rfl).2 rfl).2.2.1, h.2.2.2.2.1 Examples.shopApp "account" rfl⟩

end Storage

end DbApiTask
